import Mathlib

set_option maxHeartbeats 1000000

/-! Verification development for the hprof-slurp HPROF analyzer.

Bytes are modeled as natural numbers, reduced modulo 256 when read, and
byte sequences as `List Nat`.  A decoder is a function from an input byte
list to a parse outcome that records how many bytes were consumed,
mirroring the nom streaming combinators used by the source
(`src/parser/record_parser.rs` and friends): `.ok c v` is nom's
`Ok((rest, v))` with `c` consumed bytes, `.incomplete n` is
`Err(Incomplete(Needed::new(n)))` (n more bytes required), and `.error`
models a fatal failure (a Rust panic such as an unhandled tag). -/

inductive PResult (α : Type) : Type where
  | ok (consumed : Nat) (val : α)
  | incomplete (needed : Nat)
  | error
deriving DecidableEq

def Decoder (α : Type) : Type := List Nat → PResult α

/-- nom's `success`: consumes nothing. -/
def ppure {α : Type} (v : α) : Decoder α := fun _ => .ok 0 v

/-- A decoder that fails fatally (models a Rust `panic!`). -/
def perror {α : Type} : Decoder α := fun _ => .error

/-- Sequencing of decoders (nom's `flat_map` / `and_then` chains):
consumed counts add up, failures propagate. -/
def pbind {α β : Type} (p : Decoder α) (f : α → Decoder β) : Decoder β := fun xs =>
  match p xs with
  | .ok c v =>
    match f v (xs.drop c) with
    | .ok c2 w => .ok (c + c2) w
    | .incomplete n => .incomplete n
    | .error => .error
  | .incomplete n => .incomplete n
  | .error => .error

/-- nom's `map`. -/
def pmap {α β : Type} (f : α → β) (p : Decoder α) : Decoder β :=
  pbind p (fun v => ppure (f v))

/-- nom's `bytes::streaming::take(n)`: on short input reports
`Needed::new(n - input.len())`. -/
def ptake (n : Nat) : Decoder (List Nat) := fun xs =>
  if n ≤ xs.length then .ok n (xs.take n) else .incomplete (n - xs.length)

/-- Runs a decoder and also returns the number of bytes it consumed
(models the `i.len() - r1.len()` computation in `parse_hprof_record`). -/
def pwithConsumed {α : Type} (p : Decoder α) : Decoder (Nat × α) := fun xs =>
  match p xs with
  | .ok c v => .ok c (c, v)
  | .incomplete n => .incomplete n
  | .error => .error

/-- nom's `multi::count`: runs a decoder a fixed number of times. -/
def pcount {α : Type} (p : Decoder α) : Nat → Decoder (List α)
  | 0 => ppure []
  | n + 1 => pbind p (fun x => pmap (fun l => x :: l) (pcount p n))

/-- Big-endian value of a byte list (each entry reduced mod 256). -/
def beVal (bs : List Nat) : Nat := bs.foldl (fun a b => a * 256 + b % 256) 0

/-- Big-endian unsigned integer decoder of width `w`
(nom's `number::streaming::be_u8/be_u16/be_u32/be_u64`). -/
def puint (w : Nat) : Decoder Nat := pmap beVal (ptake w)

theorem take_pref {α : Type} (c : Nat) (xs : List α) : xs.take c <+: xs :=
  List.take_prefix c xs

theorem pref_of_take_pref {α : Type} {c : Nat} {xs ys : List α} (hc : c ≤ xs.length)
    (h : xs.take c <+: ys) : ys.take c = xs.take c := by
  obtain ⟨t, ht⟩ := h
  have hlen : (xs.take c).length = c := by simp [hc]
  rw [← ht, List.take_left' hlen]

theorem drop_of_take_pref {α : Type} {c : Nat} {xs ys : List α} (hc : c ≤ xs.length)
    (h : xs.take c <+: ys) : ∃ t, ys.drop c = t ∧ ys = xs.take c ++ t := by
  obtain ⟨t, ht⟩ := h
  have hlen : (xs.take c).length = c := by simp [hc]
  exact ⟨t, by rw [← ht, List.drop_left' hlen], ht.symm⟩

theorem drop_pref_of_pref {α : Type} {xs ys : List α} (c : Nat) (hc : c ≤ xs.length)
    (h : xs <+: ys) : xs.drop c <+: ys.drop c := by
  obtain ⟨t, rfl⟩ := h
  refine ⟨t, ?_⟩
  rw [List.drop_append_eq_append_drop]
  have : c - xs.length = 0 := by omega
  simp [this]

/-- Prefix-determinism of a streaming decoder: a successful parse only
depends on the consumed prefix, fatal errors persist under input
extension, and an `incomplete n` outcome truly requires `n` further
bytes before any success is possible.  All nom streaming decoders used
by the source satisfy this; it is the backbone of the resumable-parse
arguments. -/
structure Det {α : Type} (p : Decoder α) : Prop where
  ok_le : ∀ xs c v, p xs = .ok c v → c ≤ xs.length
  ok_ext : ∀ xs c v, p xs = .ok c v → ∀ ys, xs.take c <+: ys → p ys = .ok c v
  err_ext : ∀ xs ext, p xs = .error → p (xs ++ ext) = .error
  inc_needed : ∀ xs n, p xs = .incomplete n →
    ∀ ys c v, xs <+: ys → p ys = .ok c v → xs.length + n ≤ ys.length

theorem Det.ok_mono {α : Type} {p : Decoder α} (hp : Det p) {xs ys : List Nat} {c : Nat}
    {v : α} (h : p xs = .ok c v) (hpre : xs <+: ys) : p ys = .ok c v :=
  hp.ok_ext xs c v h ys ((take_pref c xs).trans hpre)

theorem pbind_ok {α β : Type} {p : Decoder α} {f : α → Decoder β} {xs : List Nat}
    {c1 c2 : Nat} {v1 : α} {w : β} (h1 : p xs = .ok c1 v1)
    (h2 : f v1 (xs.drop c1) = .ok c2 w) : pbind p f xs = .ok (c1 + c2) w := by
  simp only [pbind, h1, h2]

theorem pbind_ok_inc {α β : Type} {p : Decoder α} {f : α → Decoder β} {xs : List Nat}
    {c1 n : Nat} {v1 : α} (h1 : p xs = .ok c1 v1)
    (h2 : f v1 (xs.drop c1) = .incomplete n) : pbind p f xs = .incomplete n := by
  simp only [pbind, h1, h2]

theorem pbind_ok_err {α β : Type} {p : Decoder α} {f : α → Decoder β} {xs : List Nat}
    {c1 : Nat} {v1 : α} (h1 : p xs = .ok c1 v1)
    (h2 : f v1 (xs.drop c1) = .error) : pbind p f xs = .error := by
  simp only [pbind, h1, h2]

theorem pbind_inc {α β : Type} {p : Decoder α} {f : α → Decoder β} {xs : List Nat}
    {n : Nat} (h1 : p xs = .incomplete n) : pbind p f xs = .incomplete n := by
  simp only [pbind, h1]

theorem pbind_err {α β : Type} {p : Decoder α} {f : α → Decoder β} {xs : List Nat}
    (h1 : p xs = .error) : pbind p f xs = .error := by
  simp only [pbind, h1]

theorem pbind_inv_ok {α β : Type} {p : Decoder α} {f : α → Decoder β} {xs : List Nat}
    {c : Nat} {v : β} (h : pbind p f xs = .ok c v) :
    ∃ c1 v1 c2, p xs = .ok c1 v1 ∧ f v1 (xs.drop c1) = .ok c2 v ∧ c = c1 + c2 := by
  unfold pbind at h
  split at h
  · rename_i c1 v1 hpx
    split at h
    · rename_i c2 w hfx
      cases h
      exact ⟨c1, v1, c2, hpx, hfx, rfl⟩
    · cases h
    · cases h
  · cases h
  · cases h

theorem pbind_inv_inc {α β : Type} {p : Decoder α} {f : α → Decoder β} {xs : List Nat}
    {n : Nat} (h : pbind p f xs = .incomplete n) :
    p xs = .incomplete n ∨ ∃ c1 v1, p xs = .ok c1 v1 ∧ f v1 (xs.drop c1) = .incomplete n := by
  unfold pbind at h
  split at h
  · rename_i c1 v1 hpx
    split at h
    · cases h
    · rename_i m hfx
      cases h
      exact Or.inr ⟨c1, v1, hpx, hfx⟩
    · cases h
  · rename_i m hpx
    cases h
    exact Or.inl hpx
  · cases h

theorem pbind_inv_err {α β : Type} {p : Decoder α} {f : α → Decoder β} {xs : List Nat}
    (h : pbind p f xs = .error) :
    p xs = .error ∨ ∃ c1 v1, p xs = .ok c1 v1 ∧ f v1 (xs.drop c1) = .error := by
  unfold pbind at h
  split at h
  · rename_i c1 v1 hpx
    split at h
    · cases h
    · cases h
    · rename_i hfx
      exact Or.inr ⟨c1, v1, hpx, hfx⟩
  · cases h
  · rename_i hpx
    exact Or.inl hpx

theorem det_ppure {α : Type} (v : α) : Det (ppure v) := by
  refine ⟨?_, ?_, ?_, ?_⟩
  · intro xs c v' h
    simp only [ppure, PResult.ok.injEq] at h
    omega
  · intro xs c v' h ys _
    simp only [ppure, PResult.ok.injEq] at h ⊢
    exact h
  · intro xs ext h
    exact absurd h (by simp [ppure])
  · intro xs n h
    exact absurd h (by simp [ppure])

theorem det_perror {α : Type} : Det (perror (α := α)) := by
  refine ⟨?_, ?_, ?_, ?_⟩
  · intro xs c v' h
    exact absurd h (by simp [perror])
  · intro xs c v' h
    exact absurd h (by simp [perror])
  · intro xs ext _
    rfl
  · intro xs n h
    exact absurd h (by simp [perror])

theorem det_ptake (n : Nat) : Det (ptake n) := by
  refine ⟨?_, ?_, ?_, ?_⟩
  · intro xs c v h
    simp only [ptake] at h
    split at h
    · simp only [PResult.ok.injEq] at h
      omega
    · cases h
  · intro xs c v h ys hpre
    simp only [ptake] at h
    split at h
    · rename_i hle
      simp only [PResult.ok.injEq] at h
      obtain ⟨rfl, rfl⟩ := h
      have hyl : n ≤ ys.length := by
        have := hpre.length_le
        simp only [List.length_take] at this
        omega
      have := pref_of_take_pref hle hpre
      simp only [ptake, if_pos hyl, this]
    · cases h
  · intro xs ext h
    simp only [ptake] at h
    split at h <;> cases h
  · intro xs n' h ys c v hpre hok
    simp only [ptake] at h hok
    split at h
    · cases h
    · rename_i hgt
      simp only [PResult.incomplete.injEq] at h
      split at hok
      · rename_i hyl
        omega
      · cases hok

theorem det_pbind {α β : Type} {p : Decoder α} {f : α → Decoder β} (hp : Det p)
    (hf : ∀ v, Det (f v)) : Det (pbind p f) := by
  refine ⟨?_, ?_, ?_, ?_⟩
  · intro xs c v h
    obtain ⟨c1, v1, c2, hpx, hfx, rfl⟩ := pbind_inv_ok h
    have h1 := hp.ok_le xs c1 v1 hpx
    have h2 := (hf v1).ok_le _ c2 v hfx
    simp only [List.length_drop] at h2
    omega
  · intro xs c v h ys hpre
    obtain ⟨c1, v1, c2, hpx, hfx, rfl⟩ := pbind_inv_ok h
    have hc1 : c1 ≤ xs.length := hp.ok_le xs c1 v1 hpx
    have hc2 : c2 ≤ xs.length - c1 := by
      have := (hf v1).ok_le _ c2 v hfx
      simp only [List.length_drop] at this
      omega
    have hpre1 : xs.take c1 <+: ys := by
      have h1 : xs.take c1 <+: xs.take (c1 + c2) := by
        have heq : xs.take c1 = (xs.take (c1 + c2)).take c1 := by
          rw [List.take_take]
          congr 1
          omega
        rw [heq]
        exact take_pref _ _
      exact h1.trans hpre
    have hpy : p ys = .ok c1 v1 := hp.ok_ext xs c1 v1 hpx ys hpre1
    have hsplit : xs.take (c1 + c2) = xs.take c1 ++ (xs.drop c1).take c2 :=
      List.take_add xs c1 c2
    obtain ⟨t, hdrop, hy⟩ := drop_of_take_pref (by omega) hpre
    have hpre2 : (xs.drop c1).take c2 <+: ys.drop c1 := by
      rw [hsplit] at hy
      have hlen : (xs.take c1).length = c1 := by simp [hc1]
      rw [List.append_assoc] at hy
      refine ⟨t, ?_⟩
      rw [hy, List.drop_left' hlen]
    exact pbind_ok hpy ((hf v1).ok_ext _ c2 v hfx (ys.drop c1) hpre2)
  · intro xs ext h
    rcases pbind_inv_err h with hpx | ⟨c1, v1, hpx, hfx⟩
    · exact pbind_err (hp.err_ext xs ext hpx)
    · have hc1 : c1 ≤ xs.length := hp.ok_le xs c1 v1 hpx
      have hpy : p (xs ++ ext) = .ok c1 v1 :=
        hp.ok_mono hpx (List.prefix_append xs ext)
      have hdrop : (xs ++ ext).drop c1 = xs.drop c1 ++ ext := by
        rw [List.drop_append_eq_append_drop]
        have hz : c1 - xs.length = 0 := by omega
        simp [hz]
      refine pbind_ok_err hpy ?_
      rw [hdrop]
      exact (hf v1).err_ext _ ext hfx
  · intro xs n h ys c v hpre hok
    obtain ⟨c1', v1', c2', hpy, hfy, rfl⟩ := pbind_inv_ok hok
    rcases pbind_inv_inc h with hpx | ⟨c1, v1, hpx, hfx⟩
    · exact hp.inc_needed xs n hpx ys c1' v1' hpre hpy
    · have hc1 : c1 ≤ xs.length := hp.ok_le xs c1 v1 hpx
      have hpy' : p ys = .ok c1 v1 := hp.ok_mono hpx hpre
      rw [hpy'] at hpy
      injection hpy with h1 h2
      subst h1 h2
      have hd := drop_pref_of_pref c1 hc1 hpre
      have := (hf v1).inc_needed _ n hfx (ys.drop c1) c2' v hd hfy
      simp only [List.length_drop] at this
      have := hpre.length_le
      omega

theorem det_pmap {α β : Type} (f : α → β) {p : Decoder α} (hp : Det p) : Det (pmap f p) :=
  det_pbind hp (fun v => det_ppure (f v))

theorem pwc_inv_ok {α : Type} {p : Decoder α} {xs : List Nat} {c : Nat} {v : Nat × α}
    (h : pwithConsumed p xs = .ok c v) : p xs = .ok c v.2 ∧ v.1 = c := by
  unfold pwithConsumed at h
  split at h
  · rename_i c1 v1 hpx
    cases h
    exact ⟨hpx, rfl⟩
  · cases h
  · cases h

theorem pwc_inv_inc {α : Type} {p : Decoder α} {xs : List Nat} {n : Nat}
    (h : pwithConsumed p xs = .incomplete n) : p xs = .incomplete n := by
  unfold pwithConsumed at h
  split at h
  · cases h
  · rename_i hpx
    cases h
    exact hpx
  · cases h

theorem pwc_inv_err {α : Type} {p : Decoder α} {xs : List Nat}
    (h : pwithConsumed p xs = .error) : p xs = .error := by
  unfold pwithConsumed at h
  split at h
  · cases h
  · cases h
  · rename_i hpx
    exact hpx

theorem pwc_ok {α : Type} {p : Decoder α} {xs : List Nat} {c : Nat} {v : α}
    (h : p xs = .ok c v) : pwithConsumed p xs = .ok c (c, v) := by
  simp only [pwithConsumed, h]

theorem det_pwithConsumed {α : Type} {p : Decoder α} (hp : Det p) : Det (pwithConsumed p) := by
  refine ⟨?_, ?_, ?_, ?_⟩
  · intro xs c v h
    obtain ⟨hpx, _⟩ := pwc_inv_ok h
    exact hp.ok_le xs c v.2 hpx
  · intro xs c v h ys hpre
    obtain ⟨hpx, hv⟩ := pwc_inv_ok h
    have := pwc_ok (hp.ok_ext xs c v.2 hpx ys hpre)
    rw [this]
    congr 1
    rw [← hv]
  · intro xs ext h
    have hpx := pwc_inv_err h
    simp only [pwithConsumed, hp.err_ext xs ext hpx]
  · intro xs n h ys c v hpre hok
    have hpx := pwc_inv_inc h
    obtain ⟨hpy, _⟩ := pwc_inv_ok hok
    exact hp.inc_needed xs n hpx ys c v.2 hpre hpy

theorem det_pcount {α : Type} {p : Decoder α} (hp : Det p) (n : Nat) : Det (pcount p n) := by
  induction n with
  | zero => exact det_ppure []
  | succ k ih => exact det_pbind hp (fun x => det_pmap _ ih)

theorem det_puint (w : Nat) : Det (puint w) :=
  det_pmap beVal (det_ptake w)

/-! ## Data model

Mirrors `src/parser/gc_record.rs` and `src/parser/record.rs`.  Machine
integers (u64/u32/u16, and the two's-complement i8/i16/i32/i64 and float
bit patterns, which the claims never interpret) are carried as `Nat`
holding the raw big-endian value read from the input. -/

inductive FieldType : Type where
  | Object
  | Bool
  | Char
  | Float
  | Double
  | Byte
  | Short
  | Int
  | Long
deriving DecidableEq

/-- `FieldType::from_value`; `none` models the `panic!` on an unknown tag
value.  The source matches on an `i8`, whose negative values correspond to
bytes ≥ 128 and match no arm, so matching the raw byte is equivalent. -/
def FieldType.from_value (v : Nat) : Option FieldType :=
  if v = 2 then some .Object
  else if v = 4 then some .Bool
  else if v = 5 then some .Char
  else if v = 6 then some .Float
  else if v = 7 then some .Double
  else if v = 8 then some .Byte
  else if v = 9 then some .Short
  else if v = 10 then some .Int
  else if v = 11 then some .Long
  else none

structure ConstFieldInfo where
  const_pool_idx : Nat
  const_type : FieldType
deriving DecidableEq

structure FieldInfo where
  name_id : Nat
  field_type : FieldType
deriving DecidableEq

inductive FieldValue : Type where
  | Bool (b : Bool)
  | Byte (v : Nat)
  | Char (v : Nat)
  | Short (v : Nat)
  | Int (v : Nat)
  | Long (v : Nat)
  | Float (bits : Nat)
  | Double (bits : Nat)
  | Object (id : Nat)
deriving DecidableEq

/-- Payload of `GcRecord::ClassDump` (the repository's `ClassDumpFields`
plus the scalar fields the recorder reads off the same payload). -/
structure ClassDumpData where
  class_object_id : Nat
  stack_trace_serial_number : Nat
  super_class_object_id : Nat
  instance_size : Nat
  const_fields : List (ConstFieldInfo × FieldValue)
  static_fields : List (FieldInfo × FieldValue)
  instance_fields : List FieldInfo
deriving DecidableEq

inductive GcRecord : Type where
  | RootUnknown (object_id : Nat)
  | RootThreadObject (thread_object_id thread_sequence_number stack_sequence_number : Nat)
  | RootJniGlobal (object_id jni_global_ref_id : Nat)
  | RootJniLocal (object_id thread_serial_number frame_number_in_stack_trace : Nat)
  | RootJavaFrame (object_id thread_serial_number frame_number_in_stack_trace : Nat)
  | RootNativeStack (object_id thread_serial_number : Nat)
  | RootStickyClass (object_id : Nat)
  | RootThreadBlock (object_id thread_serial_number : Nat)
  | RootMonitorUsed (object_id : Nat)
  | InstanceDump (object_id stack_trace_serial_number class_object_id data_size : Nat)
  | ObjectArrayDump (object_id stack_trace_serial_number number_of_elements array_class_id : Nat)
  | PrimitiveArrayDump (object_id stack_trace_serial_number number_of_elements : Nat)
      (element_type : FieldType)
  | ClassDump (fields : ClassDumpData)
deriving DecidableEq

structure RecordHeader where
  timestamp : Nat
  length : Nat
deriving DecidableEq

structure AllocationSite where
  is_array : Nat
  class_serial_number : Nat
  stack_trace_serial_number : Nat
  bytes_alive : Nat
  instances_alive : Nat
  bytes_allocated : Nat
  instances_allocated : Nat
deriving DecidableEq

structure CpuSample where
  number_of_samples : Nat
  stack_trace_serial_number : Nat
deriving DecidableEq

structure StackFrameData where
  stack_frame_id : Nat
  method_name_id : Nat
  method_signature_id : Nat
  source_file_name_id : Nat
  class_serial_number : Nat
  line_number : Nat
deriving DecidableEq

structure StackTraceData where
  serial_number : Nat
  thread_serial_number : Nat
  number_of_frames : Nat
  stack_frame_ids : List Nat
deriving DecidableEq

structure LoadClassData where
  serial_number : Nat
  class_object_id : Nat
  stack_trace_serial_number : Nat
  class_name_id : Nat
deriving DecidableEq

inductive Record : Type where
  | Utf8String (id : Nat) (str : List Nat)
  | LoadClass (d : LoadClassData)
  | UnloadClass (serial_number : Nat)
  | StackFrame (d : StackFrameData)
  | StackTrace (d : StackTraceData)
  | AllocationSites (flags cutoff_ratio total_live_bytes total_live_instances
      total_bytes_allocated total_instances_allocated number_of_sites : Nat)
      (allocation_sites : List AllocationSite)
  | StartThread (thread_serial_number thread_object_id stack_trace_serial_number
      thread_name_id thread_group_name_id thread_group_parent_name_id : Nat)
  | EndThread (thread_serial_number : Nat)
  | HeapSummary (total_live_bytes total_live_instances total_bytes_allocated
      total_instances_allocated : Nat)
  | HeapDumpStart (length : Nat)
  | HeapDumpEnd (length : Nat)
  | ControlSettings (flags stack_trace_depth : Nat)
  | CpuSamples (total_number_of_samples number_of_traces : Nat)
      (cpu_samples : List CpuSample)
  | GcSegment (g : GcRecord)
deriving DecidableEq

/-! ## Primitive decoders (`src/primitive_parsers.rs`) -/

def parse_u8 : Decoder Nat := puint 1

def parse_u16 : Decoder Nat := puint 2

def parse_u32 : Decoder Nat := puint 4

def parse_u64 : Decoder Nat := puint 8

def parse_i8 : Decoder Nat := puint 1

def parse_i16 : Decoder Nat := puint 2

def parse_i32 : Decoder Nat := puint 4

def parse_i64 : Decoder Nat := puint 8

def parse_f32 : Decoder Nat := puint 4

def parse_f64 : Decoder Nat := puint 8

/-- `parse_id` (64-bit ids only; `ID_SIZE = 8`). -/
def parse_id : Decoder Nat := parse_u64

def ID_SIZE : Nat := 8

/-- 2^32; u32 arithmetic wraps at this modulus. -/
def U32LIM : Nat := 4294967296

/-- 2^64. -/
def U64LIM : Nat := 18446744073709551616

/-- Wrapping u32 subtraction `a - b` (for `a < 2^32`). -/
def wsub32 (a b : Nat) : Nat := (a + (U32LIM - b % U32LIM)) % U32LIM

/-- Wrapping u32 multiplication. -/
def wmul32 (a b : Nat) : Nat := (a * b) % U32LIM

/-- nom's `preceded`. -/
def preceded {α β : Type} (a : Decoder α) (b : Decoder β) : Decoder β :=
  pbind a (fun _ => b)

/-! ## Tag constants (`src/parser/record_parser.rs`) -/

def TAG_STRING : Nat := 0x01

def TAG_LOAD_CLASS : Nat := 0x02

def TAG_UNLOAD_CLASS : Nat := 0x03

def TAG_STACK_FRAME : Nat := 0x04

def TAG_STACK_TRACE : Nat := 0x05

def TAG_ALLOC_SITES : Nat := 0x06

def TAG_HEAP_SUMMARY : Nat := 0x07

def TAG_START_THREAD : Nat := 0x0A

def TAG_END_THREAD : Nat := 0x0B

def TAG_HEAP_DUMP : Nat := 0x0C

def TAG_HEAP_DUMP_SEGMENT : Nat := 0x1C

def TAG_HEAP_DUMP_END : Nat := 0x2C

def TAG_CONTROL_SETTING : Nat := 0x0E

def TAG_CPU_SAMPLES : Nat := 0x0D

def TAG_GC_ROOT_UNKNOWN : Nat := 0xFF

def TAG_GC_ROOT_JNI_GLOBAL : Nat := 0x01

def TAG_GC_ROOT_JNI_LOCAL : Nat := 0x02

def TAG_GC_ROOT_JAVA_FRAME : Nat := 0x03

def TAG_GC_ROOT_NATIVE_STACK : Nat := 0x04

def TAG_GC_ROOT_STICKY_CLASS : Nat := 0x05

def TAG_GC_ROOT_THREAD_BLOCK : Nat := 0x06

def TAG_GC_ROOT_MONITOR_USED : Nat := 0x07

def TAG_GC_ROOT_THREAD_OBJ : Nat := 0x08

def TAG_GC_CLASS_DUMP : Nat := 0x20

def TAG_GC_INSTANCE_DUMP : Nat := 0x21

def TAG_GC_OBJ_ARRAY_DUMP : Nat := 0x22

def TAG_GC_PRIM_ARRAY_DUMP : Nat := 0x23

/-! ## Heap-dump sub-record decoders (`src/parser/record_parser.rs`) -/

def parse_gc_root_unknown : Decoder GcRecord :=
  pmap (fun object_id => GcRecord.RootUnknown object_id) parse_id

def parse_gc_root_thread_object : Decoder GcRecord :=
  pbind parse_id (fun thread_object_id =>
  pbind parse_u32 (fun thread_sequence_number =>
  pmap (fun stack_sequence_number =>
    GcRecord.RootThreadObject thread_object_id thread_sequence_number stack_sequence_number)
    parse_u32))

def parse_gc_root_jni_global : Decoder GcRecord :=
  pbind parse_id (fun object_id =>
  pmap (fun jni_global_ref_id => GcRecord.RootJniGlobal object_id jni_global_ref_id) parse_id)

def parse_gc_root_jni_local : Decoder GcRecord :=
  pbind parse_id (fun object_id =>
  pbind parse_u32 (fun thread_serial_number =>
  pmap (fun frame_number_in_stack_trace =>
    GcRecord.RootJniLocal object_id thread_serial_number frame_number_in_stack_trace)
    parse_u32))

def parse_gc_root_java_frame : Decoder GcRecord :=
  pbind parse_id (fun object_id =>
  pbind parse_u32 (fun thread_serial_number =>
  pmap (fun frame_number_in_stack_trace =>
    GcRecord.RootJavaFrame object_id thread_serial_number frame_number_in_stack_trace)
    parse_u32))

def parse_gc_root_native_stack : Decoder GcRecord :=
  pbind parse_id (fun object_id =>
  pmap (fun thread_serial_number =>
    GcRecord.RootNativeStack object_id thread_serial_number) parse_u32)

def parse_gc_root_sticky_class : Decoder GcRecord :=
  pmap (fun object_id => GcRecord.RootStickyClass object_id) parse_id

def parse_gc_root_thread_block : Decoder GcRecord :=
  pbind parse_id (fun object_id =>
  pmap (fun thread_serial_number =>
    GcRecord.RootThreadBlock object_id thread_serial_number) parse_u32)

def parse_gc_root_monitor_used : Decoder GcRecord :=
  pmap (fun object_id => GcRecord.RootMonitorUsed object_id) parse_id

/-- `parse_field_value`: typed value decode, dispatching on the field type. -/
def parse_field_value (ty : FieldType) : Decoder FieldValue :=
  match ty with
  | .Object => pmap (fun id => FieldValue.Object id) parse_id
  | .Bool => pmap (fun bu8 => FieldValue.Bool (bu8 ≠ 0)) parse_u8
  | .Char => pmap (fun v => FieldValue.Char v) parse_u16
  | .Float => pmap (fun v => FieldValue.Float v) parse_f32
  | .Double => pmap (fun v => FieldValue.Double v) parse_f64
  | .Byte => pmap (fun v => FieldValue.Byte v) parse_i8
  | .Short => pmap (fun v => FieldValue.Short v) parse_i16
  | .Int => pmap (fun v => FieldValue.Int v) parse_i32
  | .Long => pmap (fun v => FieldValue.Long v) parse_i64

/-- `skip_array_value`: advances past a primitive array's packed values
without interpreting them.  The element-count multiplications are u32
arithmetic in the source (`number_of_elements * 2/4/8` with both operands
`u32`), hence the `wmul32`.  `FieldType::Object` panics
("object type in primitive array"). -/
def skip_array_value (element_type : FieldType) (number_of_elements : Nat) :
    Decoder (List Nat) :=
  match element_type with
  | .Object => perror
  | .Bool => ptake number_of_elements
  | .Char => ptake (wmul32 number_of_elements 2)
  | .Float => ptake (wmul32 number_of_elements 4)
  | .Double => ptake (wmul32 number_of_elements 8)
  | .Byte => ptake number_of_elements
  | .Short => ptake (wmul32 number_of_elements 2)
  | .Int => ptake (wmul32 number_of_elements 4)
  | .Long => ptake (wmul32 number_of_elements 8)

/-- `parse_field_type` (`map(parse_i8, FieldType::from_value)`; the
`panic!` inside `from_value` is the `perror` arm). -/
def parse_field_type : Decoder FieldType :=
  pbind parse_i8 (fun v =>
    match FieldType.from_value v with
    | some t => ppure t
    | none => perror)

def parse_const_pool_item : Decoder (ConstFieldInfo × FieldValue) :=
  pbind parse_u16 (fun const_pool_idx =>
  pbind parse_field_type (fun const_type =>
  pmap (fun fv => (ConstFieldInfo.mk const_pool_idx const_type, fv))
    (parse_field_value const_type)))

def parse_static_field_item : Decoder (FieldInfo × FieldValue) :=
  pbind parse_id (fun name_id =>
  pbind parse_field_type (fun field_type =>
  pmap (fun fv => (FieldInfo.mk name_id field_type, fv))
    (parse_field_value field_type)))

def parse_instance_field_item : Decoder FieldInfo :=
  pbind parse_id (fun name_id =>
  pmap (fun field_type => FieldInfo.mk name_id field_type) parse_field_type)

def parse_gc_class_dump : Decoder GcRecord :=
  pbind parse_id (fun class_object_id =>
  pbind parse_u32 (fun stack_trace_serial_number =>
  pbind parse_id (fun super_class_object_id =>
  preceded parse_id (
  preceded parse_id (
  preceded parse_id (
  preceded parse_id (
  preceded parse_id (
  pbind parse_u32 (fun instance_size =>
  pbind parse_u16 (fun constant_pool_size =>
  pbind (pcount parse_const_pool_item constant_pool_size) (fun const_fields =>
  pbind parse_u16 (fun static_fields_number =>
  pbind (pcount parse_static_field_item static_fields_number) (fun static_fields =>
  pbind parse_u16 (fun instance_field_number =>
  pmap (fun instance_fields =>
    GcRecord.ClassDump
      { class_object_id := class_object_id
        stack_trace_serial_number := stack_trace_serial_number
        super_class_object_id := super_class_object_id
        instance_size := instance_size
        const_fields := const_fields
        static_fields := static_fields
        instance_fields := instance_fields })
    (pcount parse_instance_field_item instance_field_number)))))))))))))))

def parse_gc_instance_dump : Decoder GcRecord :=
  pbind parse_id (fun object_id =>
  pbind parse_u32 (fun stack_trace_serial_number =>
  pbind parse_id (fun class_object_id =>
  pbind parse_u32 (fun data_size =>
  pmap (fun _bytes_segment =>
    GcRecord.InstanceDump object_id stack_trace_serial_number class_object_id data_size)
    (ptake data_size)))))

/-- `parse_gc_object_array_dump`: skips `number_of_elements * ID_SIZE`
payload bytes; the multiplication is u32 arithmetic in the source. -/
def parse_gc_object_array_dump : Decoder GcRecord :=
  pbind parse_id (fun object_id =>
  pbind parse_u32 (fun stack_trace_serial_number =>
  pbind parse_u32 (fun number_of_elements =>
  pbind parse_id (fun array_class_id =>
  pmap (fun _byte_array_elements =>
    GcRecord.ObjectArrayDump object_id stack_trace_serial_number number_of_elements
      array_class_id)
    (ptake (wmul32 number_of_elements ID_SIZE))))))

def parse_gc_primitive_array_dump : Decoder GcRecord :=
  pbind parse_id (fun object_id =>
  pbind parse_u32 (fun stack_trace_serial_number =>
  pbind parse_u32 (fun number_of_elements =>
  pbind parse_field_type (fun element_type =>
  pmap (fun _data_array_elements =>
    GcRecord.PrimitiveArrayDump object_id stack_trace_serial_number number_of_elements
      element_type)
    (skip_array_value element_type number_of_elements)))))

/-- `parse_gc_record`'s tag dispatch; the wildcard arm is a `panic!`
("unhandled gc record tag"). -/
def gc_tag_decoder (tag : Nat) : Decoder GcRecord :=
  if tag = TAG_GC_ROOT_UNKNOWN then parse_gc_root_unknown
  else if tag = TAG_GC_ROOT_JNI_GLOBAL then parse_gc_root_jni_global
  else if tag = TAG_GC_ROOT_JNI_LOCAL then parse_gc_root_jni_local
  else if tag = TAG_GC_ROOT_JAVA_FRAME then parse_gc_root_java_frame
  else if tag = TAG_GC_ROOT_NATIVE_STACK then parse_gc_root_native_stack
  else if tag = TAG_GC_ROOT_STICKY_CLASS then parse_gc_root_sticky_class
  else if tag = TAG_GC_ROOT_THREAD_BLOCK then parse_gc_root_thread_block
  else if tag = TAG_GC_ROOT_MONITOR_USED then parse_gc_root_monitor_used
  else if tag = TAG_GC_ROOT_THREAD_OBJ then parse_gc_root_thread_object
  else if tag = TAG_GC_CLASS_DUMP then parse_gc_class_dump
  else if tag = TAG_GC_INSTANCE_DUMP then parse_gc_instance_dump
  else if tag = TAG_GC_OBJ_ARRAY_DUMP then parse_gc_object_array_dump
  else if tag = TAG_GC_PRIM_ARRAY_DUMP then parse_gc_primitive_array_dump
  else perror

def parse_gc_record : Decoder GcRecord :=
  pbind parse_u8 gc_tag_decoder

/-! ## Top-level record decoders (`src/parser/record_parser.rs`) -/

def parse_header_record : Decoder RecordHeader :=
  pbind parse_u32 (fun timestamp =>
  pmap (fun length => RecordHeader.mk timestamp length) parse_u32)

/-- `parse_utf8_string`: the body is an id then `length - ID_SIZE` raw
string bytes (u32 subtraction; `from_utf8_lossy` is kept as raw bytes). -/
def parse_utf8_string : Decoder Record :=
  pbind parse_header_record (fun header_record =>
  pbind parse_id (fun id =>
  pmap (fun b => Record.Utf8String id b)
    (ptake (wsub32 header_record.length ID_SIZE))))

def parse_load_class : Decoder Record :=
  preceded parse_header_record (
  pbind parse_u32 (fun serial_number =>
  pbind parse_id (fun class_object_id =>
  pbind parse_u32 (fun stack_trace_serial_number =>
  pmap (fun class_name_id =>
    Record.LoadClass
      { serial_number := serial_number
        class_object_id := class_object_id
        stack_trace_serial_number := stack_trace_serial_number
        class_name_id := class_name_id })
    parse_id))))

def parse_unload_class : Decoder Record :=
  preceded parse_header_record (
  pmap (fun serial_number => Record.UnloadClass serial_number) parse_u32)

def parse_stack_frame : Decoder Record :=
  preceded parse_header_record (
  pbind parse_id (fun stack_frame_id =>
  pbind parse_id (fun method_name_id =>
  pbind parse_id (fun method_signature_id =>
  pbind parse_id (fun source_file_name_id =>
  pbind parse_u32 (fun class_serial_number =>
  pmap (fun line_number =>
    Record.StackFrame
      { stack_frame_id := stack_frame_id
        method_name_id := method_name_id
        method_signature_id := method_signature_id
        source_file_name_id := source_file_name_id
        class_serial_number := class_serial_number
        line_number := line_number })
    parse_u32))))))

/-- `parse_stack_trace`: the number of frame ids is recovered from the
declared record length as `(length - 12) / ID_SIZE` (u32 arithmetic). -/
def parse_stack_trace : Decoder Record :=
  pbind parse_header_record (fun header_record =>
  pbind parse_u32 (fun serial_number =>
  pbind parse_u32 (fun thread_serial_number =>
  pbind parse_u32 (fun number_of_frames =>
  pmap (fun stack_frame_ids =>
    Record.StackTrace
      { serial_number := serial_number
        thread_serial_number := thread_serial_number
        number_of_frames := number_of_frames
        stack_frame_ids := stack_frame_ids })
    (pcount parse_id (wsub32 header_record.length 12 / ID_SIZE))))))

def parse_start_thread : Decoder Record :=
  preceded parse_header_record (
  pbind parse_u32 (fun thread_serial_number =>
  pbind parse_id (fun thread_object_id =>
  pbind parse_u32 (fun stack_trace_serial_number =>
  pbind parse_id (fun thread_name_id =>
  pbind parse_id (fun thread_group_name_id =>
  pmap (fun thread_group_parent_name_id =>
    Record.StartThread thread_serial_number thread_object_id stack_trace_serial_number
      thread_name_id thread_group_name_id thread_group_parent_name_id)
    parse_id))))))

def parse_heap_summary : Decoder Record :=
  preceded parse_header_record (
  pbind parse_u32 (fun total_live_bytes =>
  pbind parse_u32 (fun total_live_instances =>
  pbind parse_u64 (fun total_bytes_allocated =>
  pmap (fun total_instances_allocated =>
    Record.HeapSummary total_live_bytes total_live_instances total_bytes_allocated
      total_instances_allocated)
    parse_u64))))

def parse_end_thread : Decoder Record :=
  preceded parse_header_record (
  pmap (fun thread_serial_number => Record.EndThread thread_serial_number) parse_u32)

def parse_allocation_site : Decoder AllocationSite :=
  pbind parse_u8 (fun is_array =>
  pbind parse_u32 (fun class_serial_number =>
  pbind parse_u32 (fun stack_trace_serial_number =>
  pbind parse_u32 (fun bytes_alive =>
  pbind parse_u32 (fun instances_alive =>
  pbind parse_u32 (fun bytes_allocated =>
  pmap (fun instances_allocated =>
    AllocationSite.mk is_array class_serial_number stack_trace_serial_number bytes_alive
      instances_alive bytes_allocated instances_allocated)
    parse_u32))))))

def parse_allocation_sites : Decoder Record :=
  preceded parse_header_record (
  pbind parse_u16 (fun flags =>
  pbind parse_u32 (fun cutoff_ratio =>
  pbind parse_u32 (fun total_live_bytes =>
  pbind parse_u32 (fun total_live_instances =>
  pbind parse_u64 (fun total_bytes_allocated =>
  pbind parse_u64 (fun total_instances_allocated =>
  pbind parse_u32 (fun number_of_sites =>
  pmap (fun allocation_sites =>
    Record.AllocationSites flags cutoff_ratio total_live_bytes total_live_instances
      total_bytes_allocated total_instances_allocated number_of_sites allocation_sites)
    (pcount parse_allocation_site number_of_sites)))))))))

def parse_heap_dump_end : Decoder Record :=
  pmap (fun rb => Record.HeapDumpEnd rb.length) parse_header_record

def parse_control_settings : Decoder Record :=
  preceded parse_header_record (
  pbind parse_u32 (fun flags =>
  pmap (fun stack_trace_depth => Record.ControlSettings flags stack_trace_depth)
    parse_u16))

def parse_cpu_sample : Decoder CpuSample :=
  pbind parse_u32 (fun number_of_samples =>
  pmap (fun stack_trace_serial_number =>
    CpuSample.mk number_of_samples stack_trace_serial_number)
    parse_u32)

def parse_cpu_samples : Decoder Record :=
  preceded parse_header_record (
  pbind parse_u32 (fun total_number_of_samples =>
  pbind parse_u32 (fun number_of_traces =>
  pmap (fun cpu_samples =>
    Record.CpuSamples total_number_of_samples number_of_traces cpu_samples)
    (pcount parse_cpu_sample total_number_of_samples))))

/-! ## The stateful record parser (`HprofRecordParser`) -/

/-- The parser's mutable state: `heap_dump_remaining_len` (a u32) is the
number of heap-dump-segment body bytes still to be consumed in
sub-record mode; 0 means top-level mode. -/
structure PState where
  heap_dump_remaining_len : Nat
deriving DecidableEq

/-- Top-level tag dispatch of `parse_hprof_record`; every simple record
leaves the parser in top-level mode, while `HEAP_DUMP` /
`HEAP_DUMP_SEGMENT` records the declared segment length.  The wildcard
arm is a `panic!` ("unhandled record tag"). -/
def record_tag_decoder (tag : Nat) : Decoder (Record × PState) :=
  if tag = TAG_STRING then pmap (fun r => (r, PState.mk 0)) parse_utf8_string
  else if tag = TAG_LOAD_CLASS then pmap (fun r => (r, PState.mk 0)) parse_load_class
  else if tag = TAG_UNLOAD_CLASS then pmap (fun r => (r, PState.mk 0)) parse_unload_class
  else if tag = TAG_STACK_FRAME then pmap (fun r => (r, PState.mk 0)) parse_stack_frame
  else if tag = TAG_STACK_TRACE then pmap (fun r => (r, PState.mk 0)) parse_stack_trace
  else if tag = TAG_ALLOC_SITES then pmap (fun r => (r, PState.mk 0)) parse_allocation_sites
  else if tag = TAG_HEAP_SUMMARY then pmap (fun r => (r, PState.mk 0)) parse_heap_summary
  else if tag = TAG_START_THREAD then pmap (fun r => (r, PState.mk 0)) parse_start_thread
  else if tag = TAG_END_THREAD then pmap (fun r => (r, PState.mk 0)) parse_end_thread
  else if tag = TAG_CONTROL_SETTING then
    pmap (fun r => (r, PState.mk 0)) parse_control_settings
  else if tag = TAG_CPU_SAMPLES then pmap (fun r => (r, PState.mk 0)) parse_cpu_samples
  else if tag = TAG_HEAP_DUMP_END then pmap (fun r => (r, PState.mk 0)) parse_heap_dump_end
  else if tag = TAG_HEAP_DUMP ∨ tag = TAG_HEAP_DUMP_SEGMENT then
    pmap (fun hr => (Record.HeapDumpStart hr.length, PState.mk hr.length))
      parse_header_record
  else perror

/-- One step of `HprofRecordParser::parse_hprof_record`.  In top-level
mode (`heap_dump_remaining_len = 0`) it reads a tag byte and dispatches;
in sub-record mode it parses one GC sub-record and subtracts the bytes
it consumed from the remaining length (wrapping u32 subtraction, as in
`self.heap_dump_remaining_len -= gc_sub_len as u32`). -/
def parse_hprof_record (s : PState) : Decoder (Record × PState) :=
  if s.heap_dump_remaining_len = 0 then
    pbind parse_u8 record_tag_decoder
  else
    pmap (fun cg =>
      (Record.GcSegment cg.2, PState.mk (wsub32 s.heap_dump_remaining_len cg.1)))
      (pwithConsumed parse_gc_record)

/-! ## Prefix-determinism of the whole grammar -/

theorem det_parse_u8 : Det parse_u8 := det_puint 1

theorem det_parse_u16 : Det parse_u16 := det_puint 2

theorem det_parse_u32 : Det parse_u32 := det_puint 4

theorem det_parse_u64 : Det parse_u64 := det_puint 8

theorem det_parse_i8 : Det parse_i8 := det_puint 1

theorem det_parse_i16 : Det parse_i16 := det_puint 2

theorem det_parse_i32 : Det parse_i32 := det_puint 4

theorem det_parse_i64 : Det parse_i64 := det_puint 8

theorem det_parse_f32 : Det parse_f32 := det_puint 4

theorem det_parse_f64 : Det parse_f64 := det_puint 8

theorem det_parse_id : Det parse_id := det_parse_u64

theorem det_parse_gc_root_unknown : Det parse_gc_root_unknown :=
  det_pmap _ det_parse_id

theorem det_parse_gc_root_thread_object : Det parse_gc_root_thread_object :=
  det_pbind det_parse_id (fun _ => det_pbind det_parse_u32 (fun _ => det_pmap _ det_parse_u32))

theorem det_parse_gc_root_jni_global : Det parse_gc_root_jni_global :=
  det_pbind det_parse_id (fun _ => det_pmap _ det_parse_id)

theorem det_parse_gc_root_jni_local : Det parse_gc_root_jni_local :=
  det_pbind det_parse_id (fun _ => det_pbind det_parse_u32 (fun _ => det_pmap _ det_parse_u32))

theorem det_parse_gc_root_java_frame : Det parse_gc_root_java_frame :=
  det_pbind det_parse_id (fun _ => det_pbind det_parse_u32 (fun _ => det_pmap _ det_parse_u32))

theorem det_parse_gc_root_native_stack : Det parse_gc_root_native_stack :=
  det_pbind det_parse_id (fun _ => det_pmap _ det_parse_u32)

theorem det_parse_gc_root_sticky_class : Det parse_gc_root_sticky_class :=
  det_pmap _ det_parse_id

theorem det_parse_gc_root_thread_block : Det parse_gc_root_thread_block :=
  det_pbind det_parse_id (fun _ => det_pmap _ det_parse_u32)

theorem det_parse_gc_root_monitor_used : Det parse_gc_root_monitor_used :=
  det_pmap _ det_parse_id

theorem det_parse_field_value (ty : FieldType) : Det (parse_field_value ty) := by
  cases ty
  · exact det_pmap _ det_parse_id
  · exact det_pmap _ det_parse_u8
  · exact det_pmap _ det_parse_u16
  · exact det_pmap _ det_parse_f32
  · exact det_pmap _ det_parse_f64
  · exact det_pmap _ det_parse_i8
  · exact det_pmap _ det_parse_i16
  · exact det_pmap _ det_parse_i32
  · exact det_pmap _ det_parse_i64

theorem det_skip_array_value (ty : FieldType) (n : Nat) : Det (skip_array_value ty n) := by
  cases ty
  · exact det_perror
  all_goals exact det_ptake _

theorem det_parse_field_type : Det parse_field_type := by
  refine det_pbind det_parse_i8 (fun v => ?_)
  cases h : FieldType.from_value v
  · exact det_perror
  · exact det_ppure _

theorem det_parse_const_pool_item : Det parse_const_pool_item :=
  det_pbind det_parse_u16 (fun _ =>
    det_pbind det_parse_field_type (fun ty => det_pmap _ (det_parse_field_value ty)))

theorem det_parse_static_field_item : Det parse_static_field_item :=
  det_pbind det_parse_id (fun _ =>
    det_pbind det_parse_field_type (fun ty => det_pmap _ (det_parse_field_value ty)))

theorem det_parse_instance_field_item : Det parse_instance_field_item :=
  det_pbind det_parse_id (fun _ => det_pmap _ det_parse_field_type)

theorem det_preceded {α β : Type} {a : Decoder α} {b : Decoder β} (ha : Det a)
    (hb : Det b) : Det (preceded a b) :=
  det_pbind ha (fun _ => hb)

theorem det_parse_gc_class_dump : Det parse_gc_class_dump :=
  det_pbind det_parse_id (fun _ =>
  det_pbind det_parse_u32 (fun _ =>
  det_pbind det_parse_id (fun _ =>
  det_preceded det_parse_id (
  det_preceded det_parse_id (
  det_preceded det_parse_id (
  det_preceded det_parse_id (
  det_preceded det_parse_id (
  det_pbind det_parse_u32 (fun _ =>
  det_pbind det_parse_u16 (fun k1 =>
  det_pbind (det_pcount det_parse_const_pool_item k1) (fun _ =>
  det_pbind det_parse_u16 (fun k2 =>
  det_pbind (det_pcount det_parse_static_field_item k2) (fun _ =>
  det_pbind det_parse_u16 (fun k3 =>
  det_pmap _ (det_pcount det_parse_instance_field_item k3)))))))))))))))

theorem det_parse_gc_instance_dump : Det parse_gc_instance_dump :=
  det_pbind det_parse_id (fun _ =>
  det_pbind det_parse_u32 (fun _ =>
  det_pbind det_parse_id (fun _ =>
  det_pbind det_parse_u32 (fun ds =>
  det_pmap _ (det_ptake ds)))))

theorem det_parse_gc_object_array_dump : Det parse_gc_object_array_dump :=
  det_pbind det_parse_id (fun _ =>
  det_pbind det_parse_u32 (fun _ =>
  det_pbind det_parse_u32 (fun n =>
  det_pbind det_parse_id (fun _ =>
  det_pmap _ (det_ptake _)))))

theorem det_parse_gc_primitive_array_dump : Det parse_gc_primitive_array_dump :=
  det_pbind det_parse_id (fun _ =>
  det_pbind det_parse_u32 (fun _ =>
  det_pbind det_parse_u32 (fun n =>
  det_pbind det_parse_field_type (fun ty =>
  det_pmap _ (det_skip_array_value ty n)))))

theorem det_ite {α : Type} {c : Prop} [Decidable c] {p q : Decoder α} (hp : Det p)
    (hq : Det q) : Det (if c then p else q) := by
  split
  · exact hp
  · exact hq

theorem det_gc_tag_decoder (tag : Nat) : Det (gc_tag_decoder tag) := by
  unfold gc_tag_decoder
  exact det_ite det_parse_gc_root_unknown (
    det_ite det_parse_gc_root_jni_global (
    det_ite det_parse_gc_root_jni_local (
    det_ite det_parse_gc_root_java_frame (
    det_ite det_parse_gc_root_native_stack (
    det_ite det_parse_gc_root_sticky_class (
    det_ite det_parse_gc_root_thread_block (
    det_ite det_parse_gc_root_monitor_used (
    det_ite det_parse_gc_root_thread_object (
    det_ite det_parse_gc_class_dump (
    det_ite det_parse_gc_instance_dump (
    det_ite det_parse_gc_object_array_dump (
    det_ite det_parse_gc_primitive_array_dump det_perror))))))))))))

theorem det_parse_gc_record : Det parse_gc_record :=
  det_pbind det_parse_u8 det_gc_tag_decoder

theorem det_parse_header_record : Det parse_header_record :=
  det_pbind det_parse_u32 (fun _ => det_pmap _ det_parse_u32)

theorem det_parse_utf8_string : Det parse_utf8_string :=
  det_pbind det_parse_header_record (fun hr =>
  det_pbind det_parse_id (fun _ => det_pmap _ (det_ptake _)))

theorem det_parse_load_class : Det parse_load_class :=
  det_preceded det_parse_header_record (
  det_pbind det_parse_u32 (fun _ =>
  det_pbind det_parse_id (fun _ =>
  det_pbind det_parse_u32 (fun _ =>
  det_pmap _ det_parse_id))))

theorem det_parse_unload_class : Det parse_unload_class :=
  det_preceded det_parse_header_record (det_pmap _ det_parse_u32)

theorem det_parse_stack_frame : Det parse_stack_frame :=
  det_preceded det_parse_header_record (
  det_pbind det_parse_id (fun _ =>
  det_pbind det_parse_id (fun _ =>
  det_pbind det_parse_id (fun _ =>
  det_pbind det_parse_id (fun _ =>
  det_pbind det_parse_u32 (fun _ =>
  det_pmap _ det_parse_u32))))))

theorem det_parse_stack_trace : Det parse_stack_trace :=
  det_pbind det_parse_header_record (fun hr =>
  det_pbind det_parse_u32 (fun _ =>
  det_pbind det_parse_u32 (fun _ =>
  det_pbind det_parse_u32 (fun _ =>
  det_pmap _ (det_pcount det_parse_id _)))))

theorem det_parse_start_thread : Det parse_start_thread :=
  det_preceded det_parse_header_record (
  det_pbind det_parse_u32 (fun _ =>
  det_pbind det_parse_id (fun _ =>
  det_pbind det_parse_u32 (fun _ =>
  det_pbind det_parse_id (fun _ =>
  det_pbind det_parse_id (fun _ =>
  det_pmap _ det_parse_id))))))

theorem det_parse_heap_summary : Det parse_heap_summary :=
  det_preceded det_parse_header_record (
  det_pbind det_parse_u32 (fun _ =>
  det_pbind det_parse_u32 (fun _ =>
  det_pbind det_parse_u64 (fun _ =>
  det_pmap _ det_parse_u64))))

theorem det_parse_end_thread : Det parse_end_thread :=
  det_preceded det_parse_header_record (det_pmap _ det_parse_u32)

theorem det_parse_allocation_site : Det parse_allocation_site :=
  det_pbind det_parse_u8 (fun _ =>
  det_pbind det_parse_u32 (fun _ =>
  det_pbind det_parse_u32 (fun _ =>
  det_pbind det_parse_u32 (fun _ =>
  det_pbind det_parse_u32 (fun _ =>
  det_pbind det_parse_u32 (fun _ =>
  det_pmap _ det_parse_u32))))))

theorem det_parse_allocation_sites : Det parse_allocation_sites :=
  det_preceded det_parse_header_record (
  det_pbind det_parse_u16 (fun _ =>
  det_pbind det_parse_u32 (fun _ =>
  det_pbind det_parse_u32 (fun _ =>
  det_pbind det_parse_u32 (fun _ =>
  det_pbind det_parse_u64 (fun _ =>
  det_pbind det_parse_u64 (fun _ =>
  det_pbind det_parse_u32 (fun n =>
  det_pmap _ (det_pcount det_parse_allocation_site n)))))))))

theorem det_parse_heap_dump_end : Det parse_heap_dump_end :=
  det_pmap _ det_parse_header_record

theorem det_parse_control_settings : Det parse_control_settings :=
  det_preceded det_parse_header_record (
  det_pbind det_parse_u32 (fun _ => det_pmap _ det_parse_u16))

theorem det_parse_cpu_sample : Det parse_cpu_sample :=
  det_pbind det_parse_u32 (fun _ => det_pmap _ det_parse_u32)

theorem det_parse_cpu_samples : Det parse_cpu_samples :=
  det_preceded det_parse_header_record (
  det_pbind det_parse_u32 (fun n =>
  det_pbind det_parse_u32 (fun _ =>
  det_pmap _ (det_pcount det_parse_cpu_sample n))))

theorem det_record_tag_decoder (tag : Nat) : Det (record_tag_decoder tag) := by
  unfold record_tag_decoder
  exact det_ite (det_pmap _ det_parse_utf8_string) (
    det_ite (det_pmap _ det_parse_load_class) (
    det_ite (det_pmap _ det_parse_unload_class) (
    det_ite (det_pmap _ det_parse_stack_frame) (
    det_ite (det_pmap _ det_parse_stack_trace) (
    det_ite (det_pmap _ det_parse_allocation_sites) (
    det_ite (det_pmap _ det_parse_heap_summary) (
    det_ite (det_pmap _ det_parse_start_thread) (
    det_ite (det_pmap _ det_parse_end_thread) (
    det_ite (det_pmap _ det_parse_control_settings) (
    det_ite (det_pmap _ det_parse_cpu_samples) (
    det_ite (det_pmap _ det_parse_heap_dump_end) (
    det_ite (det_pmap _ det_parse_header_record) det_perror))))))))))))

theorem det_parse_hprof_record (s : PState) : Det (parse_hprof_record s) := by
  unfold parse_hprof_record
  exact det_ite (det_pbind det_parse_u8 det_record_tag_decoder)
    (det_pmap _ (det_pwithConsumed det_parse_gc_record))

/-- A successful `puint` always consumes exactly its width. -/
theorem puint_consumed {w : Nat} {xs : List Nat} {c v : Nat}
    (h : puint w xs = .ok c v) : c = w := by
  unfold puint pmap at h
  obtain ⟨c1, v1, c2, h1, h2, rfl⟩ := pbind_inv_ok h
  simp only [ptake] at h1
  split at h1
  · cases h1
    simp only [ppure, PResult.ok.injEq] at h2
    omega
  · cases h1

/-- Every successful record parse consumes at least the tag byte. -/
theorem parse_hprof_record_pos {s : PState} {xs : List Nat} {c : Nat}
    {v : Record × PState} (h : parse_hprof_record s xs = .ok c v) : 1 ≤ c := by
  unfold parse_hprof_record at h
  split at h
  · obtain ⟨c1, v1, c2, h1, h2, rfl⟩ := pbind_inv_ok h
    have := puint_consumed h1
    omega
  · obtain ⟨c1, v1, c2, h1, h2, rfl⟩ := pbind_inv_ok h
    obtain ⟨hgc, _⟩ := pwc_inv_ok h1
    obtain ⟨c1', v1', c2', h1', h2', heq⟩ := pbind_inv_ok hgc
    have := puint_consumed h1'
    simp only [ppure, PResult.ok.injEq] at h2
    omega

/-- On empty input the record parser always reports `incomplete`. -/
theorem parse_hprof_record_nil (s : PState) :
    parse_hprof_record s [] = .incomplete 1 := by
  unfold parse_hprof_record
  split
  · rfl
  · rfl

/-! ## Reference semantics: parsing a byte sequence in one piece

`runAll` repeatedly applies `parse_hprof_record`, threading the parser
state, until the input is exhausted (fuel-indexed; every successful
parse consumes at least one byte, so `xs.length` fuel suffices).  It
returns `none` on any fatal error, on zero-byte progress (the
`lazy_many1` guard) or on a record left incomplete at end of input
(a truncated dump). -/
def runAll (fuel : Nat) (s : PState) (xs : List Nat) : Option (List Record × PState) :=
  if xs.isEmpty then some ([], s)
  else
    match fuel with
    | 0 => none
    | fuel' + 1 =>
      match parse_hprof_record s xs with
      | .ok c rv =>
        if c = 0 then none
        else
          match runAll fuel' rv.2 (xs.drop c) with
          | some (recs, se) => some (rv.1 :: recs, se)
          | none => none
      | _ => none

theorem runAll_nil (fuel : Nat) (s : PState) : runAll fuel s [] = some ([], s) := by
  cases fuel <;> simp [runAll]

theorem runAll_zero {s : PState} {xs : List Nat} (hxs : xs ≠ []) :
    runAll 0 s xs = none := by
  rw [runAll.eq_def]
  simp [List.isEmpty_iff, hxs]

theorem runAll_succ {fuel : Nat} (s : PState) {xs : List Nat} (hxs : xs ≠ []) :
    runAll (fuel + 1) s xs =
      match parse_hprof_record s xs with
      | .ok c rv =>
        if c = 0 then none
        else
          match runAll fuel rv.2 (xs.drop c) with
          | some (recs, se) => some (rv.1 :: recs, se)
          | none => none
      | _ => none := by
  rw [runAll.eq_def]
  simp only [List.isEmpty_iff, hxs, if_false]

theorem runAll_cons {fuel : Nat} {s : PState} {xs : List Nat} {c : Nat}
    {rv : Record × PState} {recs : List Record} {se : PState} (hxs : xs ≠ [])
    (hp : parse_hprof_record s xs = .ok c rv) (hc : c ≠ 0)
    (hrest : runAll fuel rv.2 (xs.drop c) = some (recs, se)) :
    runAll (fuel + 1) s xs = some (rv.1 :: recs, se) := by
  rw [runAll_succ s hxs]
  simp only [hp, hc, if_false, hrest]

theorem runAll_cons_inv {fuel : Nat} {s : PState} {xs : List Nat}
    {recsr : List Record} {se : PState} (hxs : xs ≠ [])
    (h : runAll fuel s xs = some (recsr, se)) :
    ∃ fuel' c rv recs', fuel = fuel' + 1 ∧ parse_hprof_record s xs = .ok c rv ∧ c ≠ 0 ∧
      runAll fuel' rv.2 (xs.drop c) = some (recs', se) ∧ recsr = rv.1 :: recs' := by
  cases fuel with
  | zero => exact absurd (runAll_zero hxs ▸ h) (by simp)
  | succ fuel' =>
    rw [runAll_succ s hxs] at h
    split at h
    · rename_i c rv hp
      split at h
      · cases h
      · rename_i hc
        split at h
        · rename_i recs' se' hrest
          cases h
          exact ⟨fuel', c, rv, recs', rfl, hp, hc, hrest, rfl⟩
        · cases h
    · cases h

theorem runAll_mono {f1 : Nat} {s : PState} {xs : List Nat} {r : List Record × PState}
    (h : runAll f1 s xs = some r) {f2 : Nat} (hf : f1 ≤ f2) :
    runAll f2 s xs = some r := by
  obtain ⟨recsr, se⟩ := r
  induction f1 generalizing s xs recsr se f2 with
  | zero =>
    by_cases hxs : xs = []
    · subst hxs
      rw [runAll_nil] at h
      cases h
      exact runAll_nil _ _
    · exact absurd (runAll_zero hxs ▸ h) (by simp)
  | succ f1' ih =>
    by_cases hxs : xs = []
    · subst hxs
      rw [runAll_nil] at h
      cases h
      exact runAll_nil _ _
    · obtain ⟨f1'', c, rv, recs', hf1, hp, hc, hrest, hrecs⟩ := runAll_cons_inv hxs h
      injection hf1 with hf1
      subst hf1
      subst hrecs
      match f2, hf with
      | f2' + 1, hf =>
        have hrest2 : runAll f2' rv.2 (xs.drop c) = some (recs', se) :=
          ih (show f1' ≤ f2' by omega) recs' se hrest
        exact runAll_cons hxs hp hc hrest2

/-! ## The resumable batch parser (`lazy_many1` and
`HprofRecordStreamParser`, `src/parser/record_stream_parser.rs`) -/

/-- Outcome of one `lazy_many1` invocation: `ok consumed recs s` when at
least one record was parsed (a later record hitting `Incomplete` stops
the batch), `incomplete n` when the very first record is incomplete, and
`error` for a fatal failure. -/
inductive LRes : Type where
  | ok (consumed : Nat) (recs : List Record) (s : PState)
  | incomplete (needed : Nat)
  | error
deriving DecidableEq

/-- The accumulation loop of `lazy_many1` (after the first record), with
its zero-progress guard.  Fuel-indexed; fuel exhaustion is mapped to
`error` and is proven unreachable with `buf.length + 1` fuel. -/
def lazyLoop (fuel : Nat) (s : PState) (xs : List Nat) (consumed : Nat)
    (acc : List Record) : LRes :=
  match fuel with
  | 0 => .error
  | fuel' + 1 =>
    match parse_hprof_record s xs with
    | .incomplete _ => .ok consumed acc s
    | .error => .error
    | .ok c rv =>
      if c = 0 then .error
      else lazyLoop fuel' rv.2 (xs.drop c) (consumed + c) (acc ++ [rv.1])

/-- `lazy_many1` over the stateful record parser: returns the records
accumulated so far once a record reports `Incomplete`, but propagates
`Incomplete` of the very first record. -/
def lazyMany1 (fuel : Nat) (s : PState) (xs : List Nat) : LRes :=
  match parse_hprof_record s xs with
  | .incomplete n => .incomplete n
  | .error => .error
  | .ok c rv => lazyLoop fuel rv.2 (xs.drop c) c [rv.1]

/-- State of `HprofRecordStreamParser` between chunks: the parser state,
the carryover `loop_buffer`, the `needed` byte threshold below which no
parse is attempted, and the records emitted so far (in emission order;
the pooled batch vectors are concatenated). -/
structure StreamState where
  pstate : PState
  buffer : List Nat
  needed : Nat
  acc : List Record
deriving DecidableEq

/-- One loop iteration of `HprofRecordStreamParser::start` upon
receiving a chunk: append it to the carryover, skip parsing if fewer
than `needed` bytes are available, otherwise run `lazy_many1`, drain the
consumed prefix and emit the batch; on `Incomplete(n)` record
`needed = n + buffer.len()`.  `none` models the fatal panic on a parse
error. -/
def streamStep (st : StreamState) (chunk : List Nat) : Option StreamState :=
  if st.needed > (st.buffer ++ chunk).length then
    some { st with buffer := st.buffer ++ chunk }
  else
    match lazyMany1 ((st.buffer ++ chunk).length + 1) st.pstate (st.buffer ++ chunk) with
    | .ok c recs s' =>
      some { pstate := s', buffer := (st.buffer ++ chunk).drop c, needed := 0,
             acc := st.acc ++ recs }
    | .incomplete n =>
      some { st with buffer := st.buffer ++ chunk,
                     needed := (st.buffer ++ chunk).length + n }
    | .error => none

/-- Feeding a sequence of chunks to the stream parser. -/
def streamRun (st : StreamState) (chunks : List (List Nat)) : Option StreamState :=
  match chunks with
  | [] => some st
  | chunk :: rest =>
    match streamStep st chunk with
    | some st' => streamRun st' rest
    | none => none

/-- Soundness of the `needed` threshold: it never exceeds the length any
successful parse of the buffered record would require. -/
def NInv (st : StreamState) : Prop :=
  st.needed = 0 ∨
    ∀ ys c v, st.buffer <+: ys → parse_hprof_record st.pstate ys = .ok c v →
      st.needed ≤ ys.length

theorem drop_append_of_le {α : Type} {c : Nat} {xs : List α} (ys : List α)
    (hc : c ≤ xs.length) : (xs ++ ys).drop c = xs.drop c ++ ys := by
  rw [List.drop_append_eq_append_drop]
  have hz : c - xs.length = 0 := by omega
  simp [hz]

/-- Behaviour of the `lazy_many1` accumulation loop on a buffer that is
a prefix of a successfully parseable remainder: it parses records out of
the buffer until one reports `Incomplete`, and what it leaves matches
what single-piece parsing would produce. -/
theorem lazyLoop_spec (fuel : Nat) :
    ∀ (s : PState) (bufr unf : List Nat) (consumed : Nat) (acc recsr : List Record)
      (se : PState) (fuelR : Nat),
      runAll fuelR s (bufr ++ unf) = some (recsr, se) →
      bufr.length + 1 ≤ fuel →
      ∃ c1 recs1 recs2 s1,
        lazyLoop fuel s bufr consumed acc = .ok (consumed + c1) (acc ++ recs1) s1 ∧
        c1 ≤ bufr.length ∧ recsr = recs1 ++ recs2 ∧
        (∃ f2, runAll f2 s1 (bufr.drop c1 ++ unf) = some (recs2, se)) ∧
        ∃ n2, parse_hprof_record s1 (bufr.drop c1) = .incomplete n2 := by
  induction fuel with
  | zero =>
    intro s bufr unf consumed acc recsr se fuelR hrun hfuel
    omega
  | succ fuel' ih =>
    intro s bufr unf consumed acc recsr se fuelR hrun hfuel
    cases hp : parse_hprof_record s bufr with
    | incomplete n =>
      refine ⟨0, [], recsr, s, ?_, by omega, by simp, ⟨fuelR, by simpa using hrun⟩,
        ⟨n, by simpa using hp⟩⟩
      simp only [lazyLoop, hp, Nat.add_zero, List.append_nil]
    | error =>
      exfalso
      have herr := (det_parse_hprof_record s).err_ext bufr unf hp
      by_cases hne : bufr ++ unf = []
      · have hb : bufr = [] := by
          rcases List.append_eq_nil.mp hne with ⟨h1, _⟩
          exact h1
        rw [hb, parse_hprof_record_nil] at hp
        cases hp
      · obtain ⟨_, c, rv, _, _, hp2, _, _, _⟩ := runAll_cons_inv hne hrun
        rw [herr] at hp2
        cases hp2
    | ok c rv =>
      have hcpos := parse_hprof_record_pos hp
      have hcle := (det_parse_hprof_record s).ok_le _ _ _ hp
      have hne2 : bufr ++ unf ≠ [] := by
        intro hb
        rcases List.append_eq_nil.mp hb with ⟨h1, _⟩
        subst h1
        simp at hcle
        omega
      have hpfull : parse_hprof_record s (bufr ++ unf) = .ok c rv :=
        (det_parse_hprof_record s).ok_mono hp (List.prefix_append _ _)
      obtain ⟨fuelR', c', rv', recs', hfR, hp2, hc0, hrest, hrecs⟩ :=
        runAll_cons_inv hne2 hrun
      rw [hpfull] at hp2
      injection hp2 with e1 e2
      subst e1
      subst e2
      rw [drop_append_of_le unf hcle] at hrest
      obtain ⟨c1, recs1, recs2, s1, hloop, hc1, hrecs12, hf2, hn2⟩ :=
        ih rv.2 (bufr.drop c) unf (consumed + c) (acc ++ [rv.1]) recs' se fuelR' hrest
          (by simp only [List.length_drop]; omega)
      refine ⟨c + c1, rv.1 :: recs1, recs2, s1, ?_, ?_, ?_, ?_, ?_⟩
      · simp only [lazyLoop, hp]
        rw [if_neg (by omega)]
        rw [hloop]
        congr 1
        · omega
        · simp
      · simp only [List.length_drop] at hc1
        omega
      · subst hrecs
        subst hrecs12
        simp
      · obtain ⟨f2, hruns⟩ := hf2
        refine ⟨f2, ?_⟩
        have hdd : List.drop c1 (List.drop c bufr) = List.drop (c + c1) bufr := by
          rw [List.drop_drop]
        rw [hdd] at hruns
        exact hruns
      · obtain ⟨n2, hinc⟩ := hn2
        refine ⟨n2, ?_⟩
        have hdd : List.drop c1 (List.drop c bufr) = List.drop (c + c1) bufr := by
          rw [List.drop_drop]
        rw [hdd] at hinc
        exact hinc

/-- Behaviour of one `lazy_many1` call on a buffer holding a prefix of a
successfully parseable remainder: either the first record is incomplete,
or a non-empty batch is parsed whose records are exactly the next
records of the single-piece parse. -/
theorem lazyMany1_spec {s : PState} {buf unf : List Nat} {recsr : List Record}
    {se : PState} {fuelR : Nat}
    (hrun : runAll fuelR s (buf ++ unf) = some (recsr, se)) (hne : buf ≠ []) :
    (∃ n, parse_hprof_record s buf = .incomplete n ∧
        lazyMany1 (buf.length + 1) s buf = .incomplete n) ∨
    ∃ c recs1 recs2 s1,
      lazyMany1 (buf.length + 1) s buf = .ok c recs1 s1 ∧ 1 ≤ c ∧ c ≤ buf.length ∧
      recsr = recs1 ++ recs2 ∧
      (∃ f2, runAll f2 s1 (buf.drop c ++ unf) = some (recs2, se)) ∧
      ∃ n2, parse_hprof_record s1 (buf.drop c) = .incomplete n2 := by
  cases hp : parse_hprof_record s buf with
  | incomplete n =>
    refine Or.inl ⟨n, rfl, ?_⟩
    unfold lazyMany1
    simp only [hp]
  | error =>
    exfalso
    have herr := (det_parse_hprof_record s).err_ext buf unf hp
    have hne2 : buf ++ unf ≠ [] := fun hb => hne (List.append_eq_nil.mp hb).1
    obtain ⟨_, c, rv, _, _, hp2, _, _, _⟩ := runAll_cons_inv hne2 hrun
    rw [herr] at hp2
    cases hp2
  | ok c rv =>
    have hcpos := parse_hprof_record_pos hp
    have hcle := (det_parse_hprof_record s).ok_le _ _ _ hp
    have hne2 : buf ++ unf ≠ [] := fun hb => hne (List.append_eq_nil.mp hb).1
    have hpfull := (det_parse_hprof_record s).ok_mono hp (List.prefix_append buf unf)
    obtain ⟨fuelR', c', rv', recs', hfR, hp2, hc0, hrest, hrecs⟩ :=
      runAll_cons_inv hne2 hrun
    rw [hpfull] at hp2
    injection hp2 with e1 e2
    subst e1
    subst e2
    rw [drop_append_of_le unf hcle] at hrest
    obtain ⟨c1, recs1, recs2, s1, hloop, hc1, hrecs12, hf2, hn2⟩ :=
      lazyLoop_spec (buf.length + 1) rv.2 (buf.drop c) unf c [rv.1] recs' se fuelR' hrest
        (by simp only [List.length_drop]; omega)
    refine Or.inr ⟨c + c1, rv.1 :: recs1, recs2, s1, ?_, by omega, ?_, ?_, ?_, ?_⟩
    · unfold lazyMany1
      simp only [hp]
      rw [hloop]
      simp
    · simp only [List.length_drop] at hc1
      omega
    · subst hrecs
      subst hrecs12
      simp
    · obtain ⟨f2, hruns⟩ := hf2
      have hdd : List.drop c1 (List.drop c buf) = List.drop (c + c1) buf := by
        rw [List.drop_drop]
      exact ⟨f2, by rw [hdd] at hruns; exact hruns⟩
    · obtain ⟨n2, hinc⟩ := hn2
      have hdd : List.drop c1 (List.drop c buf) = List.drop (c + c1) buf := by
        rw [List.drop_drop]
      exact ⟨n2, by rw [hdd] at hinc; exact hinc⟩

/-- Effect of one stream-parser loop iteration, relative to single-piece
parsing of the full remaining input. -/
theorem streamStep_spec (st : StreamState) (chunk unf : List Nat)
    (recsr : List Record) (se : PState) (fuelR : Nat)
    (hrun : runAll fuelR st.pstate (st.buffer ++ (chunk ++ unf)) = some (recsr, se))
    (hne : chunk ≠ []) (hninv : NInv st) :
    ∃ st' recsr' fuelR',
      streamStep st chunk = some st' ∧
      st'.acc ++ recsr' = st.acc ++ recsr ∧
      runAll fuelR' st'.pstate (st'.buffer ++ unf) = some (recsr', se) ∧
      NInv st' ∧
      (unf = [] → st'.buffer = [] ∧ recsr' = []) := by
  have hassoc : st.buffer ++ (chunk ++ unf) = (st.buffer ++ chunk) ++ unf :=
    (List.append_assoc _ _ _).symm
  rw [hassoc] at hrun
  have hbufne : st.buffer ++ chunk ≠ [] := fun hb => hne (List.append_eq_nil.mp hb).2
  by_cases hskip : st.needed > (st.buffer ++ chunk).length
  · have hninv' : ∀ ys c v, st.buffer <+: ys →
        parse_hprof_record st.pstate ys = .ok c v → st.needed ≤ ys.length := by
      rcases hninv with h0 | h
      · exfalso
        omega
      · exact h
    refine ⟨{ st with buffer := st.buffer ++ chunk }, recsr, fuelR, ?_, by simp, ?_, ?_, ?_⟩
    · simp only [streamStep]
      rw [if_pos hskip]
    · simpa using hrun
    · right
      intro ys c v hpre hok
      exact hninv' ys c v ((List.prefix_append st.buffer chunk).trans hpre) hok
    · intro hunf
      exfalso
      subst hunf
      rw [List.append_nil] at hrun
      obtain ⟨_, c, rv, _, _, hp2, _, _, _⟩ := runAll_cons_inv hbufne hrun
      have := hninv' _ c rv (List.prefix_append _ _) hp2
      omega
  · rcases lazyMany1_spec hrun hbufne with ⟨n, hpinc, hlz⟩ |
      ⟨c, recs1, recs2, s1, hlz, hc1, hcle, hrecs, hf2, hn2⟩
    · refine ⟨StreamState.mk st.pstate (st.buffer ++ chunk)
          ((st.buffer ++ chunk).length + n) st.acc, recsr, fuelR, ?_, by simp,
          by simpa using hrun, ?_, ?_⟩
      · simp only [streamStep]
        rw [if_neg hskip, hlz]
      · right
        intro ys c v hpre hok
        exact (det_parse_hprof_record st.pstate).inc_needed _ n hpinc ys c v hpre hok
      · intro hunf
        exfalso
        subst hunf
        rw [List.append_nil] at hrun
        obtain ⟨_, c, rv, _, _, hp2, _, _, _⟩ := runAll_cons_inv hbufne hrun
        rw [hpinc] at hp2
        cases hp2
    · obtain ⟨f2, hrest⟩ := hf2
      obtain ⟨n2, hinc2⟩ := hn2
      refine ⟨⟨s1, (st.buffer ++ chunk).drop c, 0, st.acc ++ recs1⟩, recs2, f2, ?_, ?_,
        hrest, Or.inl rfl, ?_⟩
      · simp only [streamStep]
        rw [if_neg hskip, hlz]
      · subst hrecs
        simp
      · intro hunf
        subst hunf
        rw [List.append_nil] at hrest
        by_cases hbd : (st.buffer ++ chunk).drop c = []
        · rw [hbd, runAll_nil] at hrest
          injection hrest with hpair
          rw [Prod.mk.injEq] at hpair
          exact ⟨hbd, hpair.1.symm⟩
        · exfalso
          obtain ⟨_, c', rv', _, _, hp2, _, _, _⟩ := runAll_cons_inv hbd hrest
          rw [hinc2] at hp2
          cases hp2

theorem streamRun_spec (chunks : List (List Nat)) :
    ∀ (st : StreamState) (recsr : List Record) (se : PState) (fuelR : Nat),
      chunks ≠ [] →
      (∀ ch ∈ chunks, ch ≠ []) →
      runAll fuelR st.pstate (st.buffer ++ chunks.join) = some (recsr, se) →
      NInv st →
      ∃ stf, streamRun st chunks = some stf ∧ stf.acc = st.acc ++ recsr ∧
        stf.buffer = [] := by
  induction chunks with
  | nil =>
    intro st recsr se fuelR hne
    exact absurd rfl hne
  | cons chunk rest ih =>
    intro st recsr se fuelR _ hch hrun hninv
    have hchne : chunk ≠ [] := hch chunk (by simp)
    have hjoin : (chunk :: rest).join = chunk ++ rest.join := by simp
    rw [hjoin] at hrun
    obtain ⟨st', recsr', fuelR', hstep, hacc, hrun', hninv', hflush⟩ :=
      streamStep_spec st chunk rest.join recsr se fuelR hrun hchne hninv
    by_cases hr : rest = []
    · subst hr
      obtain ⟨hb, hr2⟩ := hflush (by simp)
      refine ⟨st', ?_, ?_, hb⟩
      · simp [streamRun, hstep]
      · subst hr2
        simpa using hacc
    · obtain ⟨stf, hrunf, haccf, hbf⟩ :=
        ih st' recsr' se fuelR' hr (fun ch hmem => hch ch (by simp [hmem])) hrun' hninv'
      refine ⟨stf, ?_, ?_, hbf⟩
      · simp only [streamRun, hstep]
        exact hrunf
      · rw [haccf, hacc]

/-- C2: for every valid HPROF body and every partition of it into
non-empty chunks, feeding the chunks in order to the streaming parser
(which appends each chunk to its carryover buffer, parses as many whole
records as possible and retains unconsumed bytes on a `NeedMore`)
produces exactly the record sequence of parsing the whole body as a
single input, with no bytes left over. -/
theorem chunked_streaming_equals_whole_parse
    (body : List Nat) (chunks : List (List Nat)) (recs : List Record) (se : PState)
    (hval : runAll body.length (PState.mk 0) body = some (recs, se))
    (hjoin : chunks.join = body)
    (hne : ∀ ch ∈ chunks, ch ≠ []) :
    ∃ stf, streamRun (StreamState.mk (PState.mk 0) [] 0 []) chunks = some stf ∧
      stf.acc = recs ∧ stf.buffer = [] := by
  subst hjoin
  by_cases hc : chunks = []
  · subst hc
    have hval2 : runAll 0 (PState.mk 0) [] = some (recs, se) := by simpa using hval
    rw [runAll_nil] at hval2
    injection hval2 with hpair
    rw [Prod.mk.injEq] at hpair
    refine ⟨StreamState.mk (PState.mk 0) [] 0 [], rfl, ?_, rfl⟩
    show ([] : List Record) = recs
    exact hpair.1
  · obtain ⟨stf, h1, h2, h3⟩ :=
      streamRun_spec chunks (StreamState.mk (PState.mk 0) [] 0 []) recs se
        chunks.join.length hc hne (by simpa using hval) (Or.inl rfl)
    exact ⟨stf, h1, by simpa using h2, h3⟩

/-! ## Big-endian encoders (to state well-formed-input theorems) -/

/-- Big-endian byte encoding of `v` on `w` bytes (value taken mod `256^w`). -/
def beBytes : Nat → Nat → List Nat
  | 0, _ => []
  | w + 1, v => beBytes w (v / 256) ++ [v % 256]

theorem beBytes_length (w v : Nat) : (beBytes w v).length = w := by
  induction w generalizing v with
  | zero => rfl
  | succ w' ih => simp [beBytes, ih]

theorem beVal_append_one (l : List Nat) (b : Nat) :
    beVal (l ++ [b]) = beVal l * 256 + b % 256 := by
  simp [beVal, List.foldl_append]

theorem beVal_beBytes (w v : Nat) : beVal (beBytes w v) = v % 256 ^ w := by
  induction w generalizing v with
  | zero =>
    simp only [beBytes, beVal, List.foldl_nil, pow_zero]
    omega
  | succ w' ih =>
    rw [beBytes, beVal_append_one, ih]
    have hmm : v % 256 % 256 = v % 256 := Nat.mod_mod_of_dvd v dvd_rfl
    rw [hmm]
    have hpow : (256 : Nat) ^ (w' + 1) = 256 * 256 ^ w' := by
      rw [pow_succ]
      omega
    rw [hpow, Nat.mod_mul]
    have h256 : v / 256 % 256 ^ w' * 256 = 256 * (v / 256 % 256 ^ w') := by omega
    omega

theorem ptake_enc (bs rest : List Nat) : ptake bs.length (bs ++ rest) = .ok bs.length bs := by
  unfold ptake
  rw [if_pos (by simp)]
  rw [List.take_left]

theorem pmap_ok {α β : Type} {f : α → β} {p : Decoder α} {xs : List Nat} {c : Nat}
    {v : α} (h : p xs = .ok c v) : pmap f p xs = .ok c (f v) := by
  unfold pmap
  have h2 : ppure (f v) (xs.drop c) = .ok 0 (f v) := rfl
  have h3 := pbind_ok (f := fun u => ppure (f u)) h h2
  simpa using h3

theorem pbind_enc {α β : Type} {p : Decoder α} {f : α → Decoder β} {bs rest : List Nat}
    {v : α} {c2 : Nat} {w : β} (h1 : p (bs ++ rest) = .ok bs.length v)
    (h2 : f v rest = .ok c2 w) :
    pbind p f (bs ++ rest) = .ok (bs.length + c2) w := by
  refine pbind_ok h1 ?_
  rw [List.drop_left]
  exact h2

theorem puint_enc (w v : Nat) (rest : List Nat) :
    puint w (beBytes w v ++ rest) = .ok w (v % 256 ^ w) := by
  unfold puint
  have h1 : ptake w (beBytes w v ++ rest) = .ok w (beBytes w v) := by
    have := ptake_enc (beBytes w v) rest
    rwa [beBytes_length] at this
  have := pmap_ok (f := beVal) h1
  rwa [beVal_beBytes] at this

theorem parse_u8_enc (v : Nat) (rest : List Nat) :
    parse_u8 (beBytes 1 v ++ rest) = .ok 1 (v % 256) := by
  have := puint_enc 1 v rest
  simpa using this

theorem parse_u16_enc (v : Nat) (rest : List Nat) :
    parse_u16 (beBytes 2 v ++ rest) = .ok 2 (v % 65536) := by
  have := puint_enc 2 v rest
  norm_num at this
  exact this

theorem parse_u32_enc (v : Nat) (rest : List Nat) :
    parse_u32 (beBytes 4 v ++ rest) = .ok 4 (v % U32LIM) := by
  have := puint_enc 4 v rest
  norm_num [U32LIM] at this ⊢
  exact this

theorem parse_u64_enc (v : Nat) (rest : List Nat) :
    parse_u64 (beBytes 8 v ++ rest) = .ok 8 (v % U64LIM) := by
  have := puint_enc 8 v rest
  norm_num [U64LIM] at this ⊢
  exact this

theorem parse_id_enc (v : Nat) (rest : List Nat) :
    parse_id (beBytes 8 v ++ rest) = .ok 8 (v % U64LIM) :=
  parse_u64_enc v rest

theorem parse_u8_cons (b : Nat) (rest : List Nat) :
    parse_u8 (b :: rest) = .ok 1 (b % 256) := by
  unfold parse_u8 puint
  have h1 : ptake 1 (b :: rest) = .ok 1 [b] := by
    unfold ptake
    rw [if_pos (by simp)]
    rfl
  have h2 := pmap_ok (f := beVal) h1
  rwa [show beVal [b] = b % 256 by simp [beVal]] at h2

theorem pbind_enc2 {α β : Type} {p : Decoder α} {f : α → Decoder β} {bs rest : List Nat}
    {v : α} {c2 n : Nat} {w : β} (hn : bs.length = n) (h1 : p (bs ++ rest) = .ok n v)
    (h2 : f v rest = .ok c2 w) : pbind p f (bs ++ rest) = .ok (n + c2) w := by
  subst hn
  exact pbind_enc h1 h2

theorem parse_header_record_enc (ts L : Nat) (rest : List Nat) (hL : L < U32LIM) :
    parse_header_record (beBytes 4 ts ++ (beBytes 4 L ++ rest)) =
      .ok 8 (RecordHeader.mk (ts % U32LIM) L) := by
  unfold parse_header_record
  have h2 : pmap (fun length => RecordHeader.mk (ts % U32LIM) length) parse_u32
      (beBytes 4 L ++ rest) = .ok 4 (RecordHeader.mk (ts % U32LIM) L) := by
    have h3 := pmap_ok (f := fun length => RecordHeader.mk (ts % U32LIM) length)
      (parse_u32_enc L rest)
    rwa [Nat.mod_eq_of_lt hL] at h3
  have hres := pbind_enc2
    (f := fun timestamp => pmap (fun length => RecordHeader.mk timestamp length) parse_u32)
    (beBytes_length 4 ts) (parse_u32_enc ts _) h2
  norm_num at hres
  exact hres

/-! ## C1: heap-dump segment framing -/

theorem record_tag_decoder_heap_dump (tag : Nat)
    (h : tag = TAG_HEAP_DUMP ∨ tag = TAG_HEAP_DUMP_SEGMENT) :
    record_tag_decoder tag =
      pmap (fun hr => (Record.HeapDumpStart hr.length, PState.mk hr.length))
        parse_header_record := by
  rcases h with rfl | rfl <;> rfl

theorem parse_heap_dump_start (tag ts L : Nat) (ext : List Nat)
    (htag : tag = TAG_HEAP_DUMP ∨ tag = TAG_HEAP_DUMP_SEGMENT) (hL : L < U32LIM) :
    parse_hprof_record (PState.mk 0) (tag :: (beBytes 4 ts ++ (beBytes 4 L ++ ext))) =
      .ok 9 (Record.HeapDumpStart L, PState.mk L) := by
  unfold parse_hprof_record
  rw [if_pos rfl]
  have h1 := parse_u8_cons tag (beBytes 4 ts ++ (beBytes 4 L ++ ext))
  have htag' : tag % 256 = tag := by rcases htag with rfl | rfl <;> rfl
  rw [htag'] at h1
  have h2 : record_tag_decoder tag (beBytes 4 ts ++ (beBytes 4 L ++ ext)) =
      .ok 8 (Record.HeapDumpStart L, PState.mk L) := by
    rw [record_tag_decoder_heap_dump tag htag]
    exact pmap_ok (f := fun hr => (Record.HeapDumpStart hr.length, PState.mk hr.length))
      (parse_header_record_enc ts L ext hL)
  have hres := pbind_ok (f := record_tag_decoder) h1 h2
  norm_num at hres
  exact hres

/-- In sub-record mode every successful parse yields a `GcSegment` record
and decrements the remaining length by the bytes consumed (wrapping u32
subtraction). -/
theorem gc_mode_step {s : PState} {i : List Nat} {c : Nat} {r : Record} {s' : PState}
    (hne : s.heap_dump_remaining_len ≠ 0)
    (h : parse_hprof_record s i = .ok c (r, s')) :
    (∃ g, r = Record.GcSegment g) ∧
      s' = PState.mk (wsub32 s.heap_dump_remaining_len c) := by
  unfold parse_hprof_record at h
  rw [if_neg hne] at h
  unfold pmap at h
  obtain ⟨c1, v1, c2, h1, h2, rfl⟩ := pbind_inv_ok h
  obtain ⟨hgc, hv1⟩ := pwc_inv_ok h1
  simp only [ppure, PResult.ok.injEq] at h2
  obtain ⟨hc2, hval⟩ := h2
  rw [Prod.mk.injEq] at hval
  obtain ⟨hr, hs⟩ := hval
  refine ⟨⟨v1.2, hr.symm⟩, ?_⟩
  rw [← hs, hv1]
  have hcc : c1 + c2 = c1 := by omega
  rw [hcc]

/-- Iterated sub-record parsing: from remaining length `r`, parse GC
sub-records (decrementing as the code does) until the counter reaches 0,
returning the total number of bytes consumed; `none` on error,
truncation, or fuel exhaustion. -/
def segConsume (fuel : Nat) (s : PState) (i : List Nat) : Option Nat :=
  if s.heap_dump_remaining_len = 0 then some 0
  else
    match fuel with
    | 0 => none
    | fuel' + 1 =>
      match parse_hprof_record s i with
      | .ok c rv => (segConsume fuel' rv.2 (i.drop c)).map (fun t => c + t)
      | _ => none

theorem segConsume_sum (fuel : Nat) :
    ∀ (s : PState) (i : List Nat) (total : Nat),
      s.heap_dump_remaining_len < U32LIM →
      segConsume fuel s i = some total →
      total % U32LIM = s.heap_dump_remaining_len := by
  induction fuel with
  | zero =>
    intro s i total hlt h
    rw [segConsume.eq_def] at h
    by_cases h0 : s.heap_dump_remaining_len = 0
    · rw [if_pos h0] at h
      cases h
      simpa [U32LIM] using h0.symm
    · rw [if_neg h0] at h
      cases h
  | succ fuel' ih =>
    intro s i total hlt h
    rw [segConsume.eq_def] at h
    by_cases h0 : s.heap_dump_remaining_len = 0
    · rw [if_pos h0] at h
      cases h
      simpa [U32LIM] using h0.symm
    · rw [if_neg h0] at h
      cases hp : parse_hprof_record s i with
      | ok c rv =>
        simp only [hp] at h
        cases htail : segConsume fuel' rv.2 (i.drop c) with
        | none =>
          rw [htail] at h
          simp at h
        | some t =>
          rw [htail] at h
          simp at h
          obtain ⟨_, hs'⟩ := gc_mode_step h0 (by rw [hp])
          have hlt' : rv.2.heap_dump_remaining_len < U32LIM := by
            rw [hs']
            show wsub32 s.heap_dump_remaining_len c < U32LIM
            unfold wsub32
            exact Nat.mod_lt _ (by norm_num [U32LIM])
          have htl := ih rv.2 (i.drop c) t hlt' htail
          have htl2 : t % U32LIM = wsub32 s.heap_dump_remaining_len c := by
            rw [htl, hs']
          unfold wsub32 at htl2
          unfold U32LIM at htl2 hlt ⊢
          omega
      | incomplete n =>
        simp only [hp] at h
        cases h
      | error =>
        simp only [hp] at h
        cases h

/-- C1: when the parser (in top-level mode) meets tag `0x0C` (HEAP_DUMP)
or `0x1C` (HEAP_DUMP_SEGMENT) it consumes exactly the tag plus the
(timestamp, length) header, emits `HeapDumpStart{length}` and sets the
remaining-bytes counter to `length`; while the counter is non-zero every
parse yields one GC sub-record and decreases the counter by the bytes
consumed; and if iterated sub-record parsing brings the counter from `L`
to 0, the sub-record byte lengths sum to exactly `L` (the sum taken
modulo 2^32, which is exact whenever the total stays below 2^32). -/
theorem heap_dump_segment_framing :
    (∀ (tag ts L : Nat) (ext : List Nat),
      (tag = TAG_HEAP_DUMP ∨ tag = TAG_HEAP_DUMP_SEGMENT) → L < U32LIM →
      parse_hprof_record (PState.mk 0) (tag :: (beBytes 4 ts ++ (beBytes 4 L ++ ext))) =
        .ok 9 (Record.HeapDumpStart L, PState.mk L)) ∧
    (∀ (s : PState) (i : List Nat) (c : Nat) (r : Record) (s' : PState),
      s.heap_dump_remaining_len ≠ 0 →
      parse_hprof_record s i = .ok c (r, s') →
      (∃ g, r = Record.GcSegment g) ∧
        s' = PState.mk (wsub32 s.heap_dump_remaining_len c) ∧
        (c ≤ s.heap_dump_remaining_len → s.heap_dump_remaining_len < U32LIM →
          s'.heap_dump_remaining_len = s.heap_dump_remaining_len - c)) ∧
    (∀ (fuel L total : Nat) (i : List Nat),
      L < U32LIM →
      segConsume fuel (PState.mk L) i = some total →
      total % U32LIM = L ∧ (total < U32LIM → total = L)) := by
  refine ⟨?_, ?_, ?_⟩
  · intro tag ts L ext htag hL
    exact parse_heap_dump_start tag ts L ext htag hL
  · intro s i c r s' hne h
    obtain ⟨hg, hs⟩ := gc_mode_step hne h
    refine ⟨hg, hs, ?_⟩
    intro hcle hlt
    rw [hs]
    show wsub32 s.heap_dump_remaining_len c = s.heap_dump_remaining_len - c
    unfold wsub32
    unfold U32LIM at hlt ⊢
    omega
  · intro fuel L total i hL h
    have h1 : total % U32LIM = L := segConsume_sum fuel (PState.mk L) i total hL h
    refine ⟨h1, ?_⟩
    intro hlt
    rw [← h1, Nat.mod_eq_of_lt hlt]

/-! ## C7 and C6: array sub-record parsing -/

theorem pbind_enc_err {α β : Type} {p : Decoder α} {f : α → Decoder β} {bs rest : List Nat}
    {v : α} {n : Nat} (hn : bs.length = n) (h1 : p (bs ++ rest) = .ok n v)
    (h2 : f v rest = .error) : pbind p f (bs ++ rest) = .error := by
  subst hn
  refine pbind_ok_err h1 ?_
  rw [List.drop_left]
  exact h2

theorem parse_field_type_cons {b : Nat} (rest : List Nat) {t : FieldType}
    (h : FieldType.from_value (b % 256) = some t) :
    parse_field_type (b :: rest) = .ok 1 t := by
  unfold parse_field_type
  have h1 : parse_i8 (b :: rest) = .ok 1 (b % 256) := parse_u8_cons b rest
  have hres : pbind parse_i8 (fun v =>
      match FieldType.from_value v with
      | some t' => ppure t'
      | none => perror) (b :: rest) = .ok (1 + 0) t := by
    refine pbind_ok h1 ?_
    show (match FieldType.from_value (b % 256) with
      | some t' => ppure t'
      | none => perror : Decoder FieldType) ((b :: rest).drop 1) = PResult.ok 0 t
    simp only [h]
    rfl
  simpa using hres

theorem skip_array_value_object (n : Nat) (xs : List Nat) :
    skip_array_value FieldType.Object n xs = .error := rfl

/-- C7: a `PrimitiveArrayDump` sub-record whose element-type byte decodes
to `Object` (tag value 2) is a fatal parse failure (the source panics in
`skip_array_value`): no record is produced and the parse does not
continue normally. -/
theorem primitive_array_dump_object_rejected (oid stsn n : Nat) (rest : List Nat) :
    parse_gc_record (TAG_GC_PRIM_ARRAY_DUMP ::
      (beBytes 8 oid ++ (beBytes 4 stsn ++ (beBytes 4 n ++ (2 :: rest))))) = .error := by
  unfold parse_gc_record
  have h1 := parse_u8_cons TAG_GC_PRIM_ARRAY_DUMP
    (beBytes 8 oid ++ (beBytes 4 stsn ++ (beBytes 4 n ++ (2 :: rest))))
  have htag : TAG_GC_PRIM_ARRAY_DUMP % 256 = TAG_GC_PRIM_ARRAY_DUMP := by norm_num [TAG_GC_PRIM_ARRAY_DUMP]
  rw [htag] at h1
  have hdisp : gc_tag_decoder TAG_GC_PRIM_ARRAY_DUMP = parse_gc_primitive_array_dump := rfl
  have hinner : parse_gc_primitive_array_dump
      (beBytes 8 oid ++ (beBytes 4 stsn ++ (beBytes 4 n ++ (2 :: rest)))) = .error := by
    unfold parse_gc_primitive_array_dump
    refine pbind_enc_err (beBytes_length 8 oid) (parse_id_enc oid _) ?_
    refine pbind_enc_err (beBytes_length 4 stsn) (parse_u32_enc stsn _) ?_
    refine pbind_enc_err (beBytes_length 4 n) (parse_u32_enc n _) ?_
    refine pbind_ok_err (parse_field_type_cons rest (by rfl)) ?_
    rfl
  refine pbind_ok_err h1 ?_
  show gc_tag_decoder TAG_GC_PRIM_ARRAY_DUMP _ = .error
  rw [hdisp]
  exact hinner

/-- Payload byte count that `skip_array_value` advances past, read off
its `take` widths (the multiplications are u32 arithmetic as in the
source; `Object` panics so its entry is never used). -/
def skip_array_byte_len (element_type : FieldType) (number_of_elements : Nat) : Nat :=
  match element_type with
  | .Object => 0
  | .Bool => number_of_elements
  | .Char => wmul32 number_of_elements 2
  | .Float => wmul32 number_of_elements 4
  | .Double => wmul32 number_of_elements 8
  | .Byte => number_of_elements
  | .Short => wmul32 number_of_elements 2
  | .Int => wmul32 number_of_elements 4
  | .Long => wmul32 number_of_elements 8

theorem skip_array_value_take {ft : FieldType} (hft : ft ≠ FieldType.Object) (n : Nat) :
    skip_array_value ft n = ptake (skip_array_byte_len ft n) := by
  cases ft
  · exact absurd rfl hft
  all_goals rfl

theorem parse_gc_object_array_dump_enc (oid stsn n acid : Nat) (payload ext : List Nat)
    (hn : n < U32LIM) (hlen : payload.length = wmul32 n ID_SIZE) :
    parse_gc_object_array_dump
      (beBytes 8 oid ++ (beBytes 4 stsn ++ (beBytes 4 n ++ (beBytes 8 acid ++ (payload ++ ext))))) =
      .ok (8 + (4 + (4 + (8 + payload.length))))
        (GcRecord.ObjectArrayDump (oid % U64LIM) (stsn % U32LIM) n (acid % U64LIM)) := by
  unfold parse_gc_object_array_dump
  refine pbind_enc2 (beBytes_length 8 oid) (parse_id_enc oid _) ?_
  refine pbind_enc2 (beBytes_length 4 stsn) (parse_u32_enc stsn _) ?_
  have hu : parse_u32 (beBytes 4 n ++ (beBytes 8 acid ++ (payload ++ ext))) = .ok 4 n := by
    rw [parse_u32_enc, Nat.mod_eq_of_lt hn]
  refine pbind_enc2 (beBytes_length 4 n) hu ?_
  refine pbind_enc2 (beBytes_length 8 acid) (parse_id_enc acid _) ?_
  have ht : ptake (wmul32 n ID_SIZE) (payload ++ ext) = .ok payload.length payload := by
    rw [← hlen]
    exact ptake_enc payload ext
  exact pmap_ok ht

theorem parse_gc_primitive_array_dump_enc (oid stsn n tb : Nat) (ft : FieldType)
    (payload ext : List Nat) (hn : n < U32LIM)
    (htb : FieldType.from_value (tb % 256) = some ft) (hft : ft ≠ FieldType.Object)
    (hlen : payload.length = skip_array_byte_len ft n) :
    parse_gc_primitive_array_dump
      (beBytes 8 oid ++ (beBytes 4 stsn ++ (beBytes 4 n ++ (tb :: (payload ++ ext))))) =
      .ok (8 + (4 + (4 + (1 + payload.length))))
        (GcRecord.PrimitiveArrayDump (oid % U64LIM) (stsn % U32LIM) n ft) := by
  unfold parse_gc_primitive_array_dump
  refine pbind_enc2 (beBytes_length 8 oid) (parse_id_enc oid _) ?_
  refine pbind_enc2 (beBytes_length 4 stsn) (parse_u32_enc stsn _) ?_
  have hu : parse_u32 (beBytes 4 n ++ (tb :: (payload ++ ext))) = .ok 4 n := by
    rw [parse_u32_enc, Nat.mod_eq_of_lt hn]
  refine pbind_enc2 (beBytes_length 4 n) hu ?_
  refine pbind_ok (parse_field_type_cons (payload ++ ext) htb) ?_
  show pmap _ (skip_array_value ft n) (payload ++ ext) = _
  rw [skip_array_value_take hft n]
  have ht : ptake (skip_array_byte_len ft n) (payload ++ ext) = .ok payload.length payload := by
    rw [← hlen]
    exact ptake_enc payload ext
  exact pmap_ok ht

/-- C6 counterexample: an `ObjectArrayDump` sub-record declaring
`number_of_elements = 2^29` is fully parsed after only the 24 fixed
bytes (plus tag), because `number_of_elements * ID_SIZE` is computed in
u32 arithmetic and `2^29 * 8` wraps to 0 — the claimed exact-for-all-n
64-bit computation would instead demand 2^32 further payload bytes. -/
theorem object_array_skip_u32_wrap_cex :
    parse_gc_record [0x22, 0, 0, 0, 0, 0, 0, 0, 1, 0, 0, 0, 1, 0x20, 0, 0, 0,
        0, 0, 0, 0, 0, 0, 0, 2] =
      .ok 25 (GcRecord.ObjectArrayDump 1 1 536870912 2) ∧
    25 ≠ 1 + 24 + 536870912 * 8 := by
  constructor
  · decide
  · decide

/-- C6 (amended): after the fixed fields, the parser advances past
exactly `number_of_elements * ID_SIZE` payload bytes for an
`ObjectArrayDump` and `number_of_elements * element_size` bytes for a
`PrimitiveArrayDump`, with the products computed in unsigned **32-bit**
arithmetic (`wmul32`, i.e. modulo 2^32) — exact only while the product
stays below 2^32, not for all `n`. -/
theorem array_payload_skip_u32 :
    (∀ (oid stsn n acid : Nat) (payload ext : List Nat), n < U32LIM →
      payload.length = wmul32 n ID_SIZE →
      parse_gc_object_array_dump
        (beBytes 8 oid ++ (beBytes 4 stsn ++ (beBytes 4 n ++ (beBytes 8 acid ++ (payload ++ ext))))) =
        .ok (24 + payload.length)
          (GcRecord.ObjectArrayDump (oid % U64LIM) (stsn % U32LIM) n (acid % U64LIM))) ∧
    (∀ (oid stsn n tb : Nat) (ft : FieldType) (payload ext : List Nat), n < U32LIM →
      FieldType.from_value (tb % 256) = some ft → ft ≠ FieldType.Object →
      payload.length = skip_array_byte_len ft n →
      parse_gc_primitive_array_dump
        (beBytes 8 oid ++ (beBytes 4 stsn ++ (beBytes 4 n ++ (tb :: (payload ++ ext))))) =
        .ok (17 + payload.length)
          (GcRecord.PrimitiveArrayDump (oid % U64LIM) (stsn % U32LIM) n ft)) := by
  constructor
  · intro oid stsn n acid payload ext hn hlen
    have h := parse_gc_object_array_dump_enc oid stsn n acid payload ext hn hlen
    have e : 8 + (4 + (4 + (8 + payload.length))) = 24 + payload.length := by omega
    rw [e] at h
    exact h
  · intro oid stsn n tb ft payload ext hn htb hft hlen
    have h := parse_gc_primitive_array_dump_enc oid stsn n tb ft payload ext hn htb hft hlen
    have e : 8 + (4 + (4 + (1 + payload.length))) = 17 + payload.length := by omega
    rw [e] at h
    exact h

/-! ## C5: per-record byte consumption for well-formed records -/

theorem presult_ok_arith {α : Type} {p : Decoder α} {xs : List Nat} {c c' : Nat} {v : α}
    (h : p xs = .ok c v) (e : c = c') : p xs = .ok c' v := by
  rw [← e]
  exact h

theorem pcount_enc {α β : Type} {p : Decoder β} (enc : α → List Nat) (f : α → β) (w : Nat)
    (hl : ∀ a, (enc a).length = w)
    (he : ∀ (a : α) (rest : List Nat), p (enc a ++ rest) = .ok w (f a)) :
    ∀ (l : List α) (rest : List Nat),
      pcount p l.length ((l.map enc).flatten ++ rest) = .ok (w * l.length) (l.map f) := by
  intro l
  induction l with
  | nil =>
    intro rest
    simp [pcount, ppure]
  | cons a l' ih =>
    intro rest
    have hshape : ((a :: l').map enc).flatten ++ rest
        = enc a ++ ((l'.map enc).flatten ++ rest) := by simp
    have hstep : pcount p (l'.length + 1) (enc a ++ ((l'.map enc).flatten ++ rest)) =
        .ok (w + w * l'.length) (f a :: l'.map f) := by
      show pbind p (fun x => pmap (fun l2 => x :: l2) (pcount p l'.length)) _ = _
      refine pbind_enc2 (hl a) (he a _) ?_
      exact pmap_ok (ih rest)
    show pcount p (l'.length + 1) _ = _
    rw [hshape, hstep]
    congr 1
    simp only [List.length_cons]
    ring

/-! Encoders for well-formed top-level records (tag, timestamp, a length
field holding the true body length, and the body fields big-endian). -/

def encUtf8String (ts id : Nat) (payload : List Nat) : List Nat :=
  TAG_STRING :: (beBytes 4 ts ++ (beBytes 4 (ID_SIZE + payload.length) ++
    (beBytes 8 id ++ payload)))

def encLoadClass (ts sn cid stsn cnid : Nat) : List Nat :=
  TAG_LOAD_CLASS :: (beBytes 4 ts ++ (beBytes 4 24 ++ (beBytes 4 sn ++
    (beBytes 8 cid ++ (beBytes 4 stsn ++ beBytes 8 cnid)))))

def encUnloadClass (ts sn : Nat) : List Nat :=
  TAG_UNLOAD_CLASS :: (beBytes 4 ts ++ (beBytes 4 4 ++ beBytes 4 sn))

def encStackFrame (ts sfid mnid msid sfnid csn ln : Nat) : List Nat :=
  TAG_STACK_FRAME :: (beBytes 4 ts ++ (beBytes 4 40 ++ (beBytes 8 sfid ++
    (beBytes 8 mnid ++ (beBytes 8 msid ++ (beBytes 8 sfnid ++
    (beBytes 4 csn ++ beBytes 4 ln)))))))

def encStackTrace (ts sn tsn : Nat) (frame_ids : List Nat) : List Nat :=
  TAG_STACK_TRACE :: (beBytes 4 ts ++ (beBytes 4 (12 + 8 * frame_ids.length) ++
    (beBytes 4 sn ++ (beBytes 4 tsn ++ (beBytes 4 frame_ids.length ++
    (frame_ids.map (beBytes 8)).flatten)))))

def encAllocationSite (a : AllocationSite) : List Nat :=
  beBytes 1 a.is_array ++ (beBytes 4 a.class_serial_number ++
    (beBytes 4 a.stack_trace_serial_number ++ (beBytes 4 a.bytes_alive ++
    (beBytes 4 a.instances_alive ++ (beBytes 4 a.bytes_allocated ++
    beBytes 4 a.instances_allocated)))))

def encAllocationSites (ts flags cr tlb tli tba tia : Nat)
    (sites : List AllocationSite) : List Nat :=
  TAG_ALLOC_SITES :: (beBytes 4 ts ++ (beBytes 4 (34 + 25 * sites.length) ++
    (beBytes 2 flags ++ (beBytes 4 cr ++ (beBytes 4 tlb ++ (beBytes 4 tli ++
    (beBytes 8 tba ++ (beBytes 8 tia ++ (beBytes 4 sites.length ++
    (sites.map encAllocationSite).flatten)))))))))

def encStartThread (ts tsn toid stsn tnid tgnid tgpnid : Nat) : List Nat :=
  TAG_START_THREAD :: (beBytes 4 ts ++ (beBytes 4 40 ++ (beBytes 4 tsn ++
    (beBytes 8 toid ++ (beBytes 4 stsn ++ (beBytes 8 tnid ++
    (beBytes 8 tgnid ++ beBytes 8 tgpnid)))))))

def encHeapSummary (ts tlb tli tba tia : Nat) : List Nat :=
  TAG_HEAP_SUMMARY :: (beBytes 4 ts ++ (beBytes 4 24 ++ (beBytes 4 tlb ++
    (beBytes 4 tli ++ (beBytes 8 tba ++ beBytes 8 tia)))))

def encEndThread (ts tsn : Nat) : List Nat :=
  TAG_END_THREAD :: (beBytes 4 ts ++ (beBytes 4 4 ++ beBytes 4 tsn))

def encControlSettings (ts flags depth : Nat) : List Nat :=
  TAG_CONTROL_SETTING :: (beBytes 4 ts ++ (beBytes 4 6 ++ (beBytes 4 flags ++
    beBytes 2 depth)))

def encCpuSample (cs : CpuSample) : List Nat :=
  beBytes 4 cs.number_of_samples ++ beBytes 4 cs.stack_trace_serial_number

def encCpuSamples (ts ntraces : Nat) (samples : List CpuSample) : List Nat :=
  TAG_CPU_SAMPLES :: (beBytes 4 ts ++ (beBytes 4 (8 + 8 * samples.length) ++
    (beBytes 4 samples.length ++ (beBytes 4 ntraces ++
    (samples.map encCpuSample).flatten))))

theorem pbind_hdr_enc {β : Type} {f : RecordHeader → Decoder β} {ts L c2 : Nat}
    {rest : List Nat} {w : β} (hL : L < U32LIM)
    (h2 : f (RecordHeader.mk (ts % U32LIM) L) rest = .ok c2 w) :
    pbind parse_header_record f (beBytes 4 ts ++ (beBytes 4 L ++ rest)) = .ok (8 + c2) w := by
  have hsh : beBytes 4 ts ++ (beBytes 4 L ++ rest) = (beBytes 4 ts ++ beBytes 4 L) ++ rest :=
    (List.append_assoc _ _ _).symm
  rw [hsh]
  have hn : (beBytes 4 ts ++ beBytes 4 L).length = 8 := by simp [beBytes_length]
  have h1 : parse_header_record ((beBytes 4 ts ++ beBytes 4 L) ++ rest) =
      .ok 8 (RecordHeader.mk (ts % U32LIM) L) := by
    rw [List.append_assoc]
    exact parse_header_record_enc ts L rest hL
  exact pbind_enc2 hn h1 h2

theorem parse_utf8_string_enc (ts id : Nat) (payload ext : List Nat)
    (hL : ID_SIZE + payload.length < U32LIM) :
    parse_utf8_string (beBytes 4 ts ++ (beBytes 4 (ID_SIZE + payload.length) ++
      (beBytes 8 id ++ (payload ++ ext)))) =
      .ok (8 + (8 + payload.length)) (Record.Utf8String (id % U64LIM) payload) := by
  unfold parse_utf8_string
  refine pbind_hdr_enc hL ?_
  refine pbind_enc2 (beBytes_length 8 id) (parse_id_enc id _) ?_
  have hproj : (RecordHeader.mk (ts % U32LIM) (ID_SIZE + payload.length)).length
      = ID_SIZE + payload.length := rfl
  rw [hproj]
  have hw : wsub32 (ID_SIZE + payload.length) ID_SIZE = payload.length := by
    unfold wsub32 ID_SIZE U32LIM
    unfold ID_SIZE U32LIM at hL
    omega
  rw [hw]
  exact pmap_ok (ptake_enc payload ext)

theorem parse_load_class_enc (ts sn cid stsn cnid : Nat) (ext : List Nat) :
    parse_load_class (beBytes 4 ts ++ (beBytes 4 24 ++ (beBytes 4 sn ++
      (beBytes 8 cid ++ (beBytes 4 stsn ++ (beBytes 8 cnid ++ ext)))))) =
      .ok (8 + (4 + (8 + (4 + 8))))
        (Record.LoadClass (LoadClassData.mk (sn % U32LIM) (cid % U64LIM)
          (stsn % U32LIM) (cnid % U64LIM))) := by
  unfold parse_load_class preceded
  refine pbind_hdr_enc (by norm_num [U32LIM]) ?_
  refine pbind_enc2 (beBytes_length 4 sn) (parse_u32_enc sn _) ?_
  refine pbind_enc2 (beBytes_length 8 cid) (parse_id_enc cid _) ?_
  refine pbind_enc2 (beBytes_length 4 stsn) (parse_u32_enc stsn _) ?_
  exact pmap_ok (parse_id_enc cnid ext)

theorem parse_unload_class_enc (ts sn : Nat) (ext : List Nat) :
    parse_unload_class (beBytes 4 ts ++ (beBytes 4 4 ++ (beBytes 4 sn ++ ext))) =
      .ok (8 + 4) (Record.UnloadClass (sn % U32LIM)) := by
  unfold parse_unload_class preceded
  refine pbind_hdr_enc (by norm_num [U32LIM]) ?_
  exact pmap_ok (parse_u32_enc sn ext)

theorem parse_stack_frame_enc (ts sfid mnid msid sfnid csn ln : Nat) (ext : List Nat) :
    parse_stack_frame (beBytes 4 ts ++ (beBytes 4 40 ++ (beBytes 8 sfid ++
      (beBytes 8 mnid ++ (beBytes 8 msid ++ (beBytes 8 sfnid ++
      (beBytes 4 csn ++ (beBytes 4 ln ++ ext)))))))) =
      .ok (8 + (8 + (8 + (8 + (8 + (4 + 4))))))
        (Record.StackFrame (StackFrameData.mk (sfid % U64LIM) (mnid % U64LIM)
          (msid % U64LIM) (sfnid % U64LIM) (csn % U32LIM) (ln % U32LIM))) := by
  unfold parse_stack_frame preceded
  refine pbind_hdr_enc (by norm_num [U32LIM]) ?_
  refine pbind_enc2 (beBytes_length 8 sfid) (parse_id_enc sfid _) ?_
  refine pbind_enc2 (beBytes_length 8 mnid) (parse_id_enc mnid _) ?_
  refine pbind_enc2 (beBytes_length 8 msid) (parse_id_enc msid _) ?_
  refine pbind_enc2 (beBytes_length 8 sfnid) (parse_id_enc sfnid _) ?_
  refine pbind_enc2 (beBytes_length 4 csn) (parse_u32_enc csn _) ?_
  exact pmap_ok (parse_u32_enc ln ext)

theorem parse_stack_trace_enc (ts sn tsn : Nat) (frame_ids : List Nat) (ext : List Nat)
    (hL : 12 + 8 * frame_ids.length < U32LIM) :
    parse_stack_trace (beBytes 4 ts ++ (beBytes 4 (12 + 8 * frame_ids.length) ++
      (beBytes 4 sn ++ (beBytes 4 tsn ++ (beBytes 4 frame_ids.length ++
      ((frame_ids.map (beBytes 8)).flatten ++ ext)))))) =
      .ok (8 + (4 + (4 + (4 + 8 * frame_ids.length))))
        (Record.StackTrace (StackTraceData.mk (sn % U32LIM) (tsn % U32LIM)
          (frame_ids.length % U32LIM) (frame_ids.map (fun v => v % U64LIM)))) := by
  unfold parse_stack_trace
  refine pbind_hdr_enc hL ?_
  refine pbind_enc2 (beBytes_length 4 sn) (parse_u32_enc sn _) ?_
  refine pbind_enc2 (beBytes_length 4 tsn) (parse_u32_enc tsn _) ?_
  refine pbind_enc2 (beBytes_length 4 frame_ids.length) (parse_u32_enc frame_ids.length _) ?_
  have hproj : (RecordHeader.mk (ts % U32LIM) (12 + 8 * frame_ids.length)).length
      = 12 + 8 * frame_ids.length := rfl
  rw [hproj]
  have hw : wsub32 (12 + 8 * frame_ids.length) 12 / ID_SIZE = frame_ids.length := by
    unfold wsub32 ID_SIZE U32LIM
    unfold U32LIM at hL
    omega
  rw [hw]
  have hc := pcount_enc (beBytes 8) (fun v => v % U64LIM) 8
    (fun a => beBytes_length 8 a) (fun a rest => parse_id_enc a rest) frame_ids ext
  have hres := pmap_ok (f := fun stack_frame_ids =>
    Record.StackTrace (StackTraceData.mk (sn % U32LIM) (tsn % U32LIM)
      (frame_ids.length % U32LIM) stack_frame_ids)) hc
  refine presult_ok_arith hres (by ring)

theorem parse_allocation_site_enc (a : AllocationSite) (rest : List Nat) :
    parse_allocation_site (encAllocationSite a ++ rest) =
      .ok 25 (AllocationSite.mk (a.is_array % 256) (a.class_serial_number % U32LIM)
        (a.stack_trace_serial_number % U32LIM) (a.bytes_alive % U32LIM)
        (a.instances_alive % U32LIM) (a.bytes_allocated % U32LIM)
        (a.instances_allocated % U32LIM)) := by
  unfold parse_allocation_site encAllocationSite
  simp only [List.append_assoc]
  have h8 : parse_u8 (beBytes 1 a.is_array ++ (beBytes 4 a.class_serial_number ++
      (beBytes 4 a.stack_trace_serial_number ++ (beBytes 4 a.bytes_alive ++
      (beBytes 4 a.instances_alive ++ (beBytes 4 a.bytes_allocated ++
      (beBytes 4 a.instances_allocated ++ rest))))))) = .ok 1 (a.is_array % 256) :=
    parse_u8_enc a.is_array _
  refine presult_ok_arith (c := 1 + (4 + (4 + (4 + (4 + (4 + 4)))))) ?_ (by norm_num)
  refine pbind_enc2 (beBytes_length 1 a.is_array) h8 ?_
  refine pbind_enc2 (beBytes_length 4 _) (parse_u32_enc a.class_serial_number _) ?_
  refine pbind_enc2 (beBytes_length 4 _) (parse_u32_enc a.stack_trace_serial_number _) ?_
  refine pbind_enc2 (beBytes_length 4 _) (parse_u32_enc a.bytes_alive _) ?_
  refine pbind_enc2 (beBytes_length 4 _) (parse_u32_enc a.instances_alive _) ?_
  refine pbind_enc2 (beBytes_length 4 _) (parse_u32_enc a.bytes_allocated _) ?_
  exact pmap_ok (parse_u32_enc a.instances_allocated rest)

theorem parse_allocation_sites_enc (ts flags cr tlb tli tba tia : Nat)
    (sites : List AllocationSite) (ext : List Nat)
    (hL : 34 + 25 * sites.length < U32LIM) :
    parse_allocation_sites (beBytes 4 ts ++ (beBytes 4 (34 + 25 * sites.length) ++
      (beBytes 2 flags ++ (beBytes 4 cr ++ (beBytes 4 tlb ++ (beBytes 4 tli ++
      (beBytes 8 tba ++ (beBytes 8 tia ++ (beBytes 4 sites.length ++
      ((sites.map encAllocationSite).flatten ++ ext)))))))))) =
      .ok (8 + (2 + (4 + (4 + (4 + (8 + (8 + (4 + 25 * sites.length)))))))) 
        (Record.AllocationSites (flags % 65536) (cr % U32LIM) (tlb % U32LIM)
          (tli % U32LIM) (tba % U64LIM) (tia % U64LIM) sites.length
          (sites.map (fun a => AllocationSite.mk (a.is_array % 256)
            (a.class_serial_number % U32LIM) (a.stack_trace_serial_number % U32LIM)
            (a.bytes_alive % U32LIM) (a.instances_alive % U32LIM)
            (a.bytes_allocated % U32LIM) (a.instances_allocated % U32LIM)))) := by
  unfold parse_allocation_sites preceded
  refine pbind_hdr_enc hL ?_
  refine pbind_enc2 (beBytes_length 2 flags) (parse_u16_enc flags _) ?_
  refine pbind_enc2 (beBytes_length 4 cr) (parse_u32_enc cr _) ?_
  refine pbind_enc2 (beBytes_length 4 tlb) (parse_u32_enc tlb _) ?_
  refine pbind_enc2 (beBytes_length 4 tli) (parse_u32_enc tli _) ?_
  refine pbind_enc2 (beBytes_length 8 tba) (parse_u64_enc tba _) ?_
  refine pbind_enc2 (beBytes_length 8 tia) (parse_u64_enc tia _) ?_
  have hk : sites.length < U32LIM := by
    unfold U32LIM at hL ⊢
    omega
  have hnum : parse_u32 (beBytes 4 sites.length ++
      ((sites.map encAllocationSite).flatten ++ ext)) = .ok 4 sites.length := by
    rw [parse_u32_enc, Nat.mod_eq_of_lt hk]
  refine pbind_enc2 (beBytes_length 4 sites.length) hnum ?_
  have hc := pcount_enc encAllocationSite
    (fun a => AllocationSite.mk (a.is_array % 256) (a.class_serial_number % U32LIM)
      (a.stack_trace_serial_number % U32LIM) (a.bytes_alive % U32LIM)
      (a.instances_alive % U32LIM) (a.bytes_allocated % U32LIM)
      (a.instances_allocated % U32LIM)) 25
    (fun a => by simp [encAllocationSite, beBytes_length])
    (fun a rest => parse_allocation_site_enc a rest) sites ext
  exact pmap_ok hc

theorem parse_start_thread_enc (ts tsn toid stsn tnid tgnid tgpnid : Nat) (ext : List Nat) :
    parse_start_thread (beBytes 4 ts ++ (beBytes 4 40 ++ (beBytes 4 tsn ++
      (beBytes 8 toid ++ (beBytes 4 stsn ++ (beBytes 8 tnid ++
      (beBytes 8 tgnid ++ (beBytes 8 tgpnid ++ ext)))))))) =
      .ok (8 + (4 + (8 + (4 + (8 + (8 + 8))))))
        (Record.StartThread (tsn % U32LIM) (toid % U64LIM) (stsn % U32LIM)
          (tnid % U64LIM) (tgnid % U64LIM) (tgpnid % U64LIM)) := by
  unfold parse_start_thread preceded
  refine pbind_hdr_enc (by norm_num [U32LIM]) ?_
  refine pbind_enc2 (beBytes_length 4 tsn) (parse_u32_enc tsn _) ?_
  refine pbind_enc2 (beBytes_length 8 toid) (parse_id_enc toid _) ?_
  refine pbind_enc2 (beBytes_length 4 stsn) (parse_u32_enc stsn _) ?_
  refine pbind_enc2 (beBytes_length 8 tnid) (parse_id_enc tnid _) ?_
  refine pbind_enc2 (beBytes_length 8 tgnid) (parse_id_enc tgnid _) ?_
  exact pmap_ok (parse_id_enc tgpnid ext)

theorem parse_heap_summary_enc (ts tlb tli tba tia : Nat) (ext : List Nat) :
    parse_heap_summary (beBytes 4 ts ++ (beBytes 4 24 ++ (beBytes 4 tlb ++
      (beBytes 4 tli ++ (beBytes 8 tba ++ (beBytes 8 tia ++ ext)))))) =
      .ok (8 + (4 + (4 + (8 + 8))))
        (Record.HeapSummary (tlb % U32LIM) (tli % U32LIM) (tba % U64LIM)
          (tia % U64LIM)) := by
  unfold parse_heap_summary preceded
  refine pbind_hdr_enc (by norm_num [U32LIM]) ?_
  refine pbind_enc2 (beBytes_length 4 tlb) (parse_u32_enc tlb _) ?_
  refine pbind_enc2 (beBytes_length 4 tli) (parse_u32_enc tli _) ?_
  refine pbind_enc2 (beBytes_length 8 tba) (parse_u64_enc tba _) ?_
  exact pmap_ok (parse_u64_enc tia ext)

theorem parse_end_thread_enc (ts tsn : Nat) (ext : List Nat) :
    parse_end_thread (beBytes 4 ts ++ (beBytes 4 4 ++ (beBytes 4 tsn ++ ext))) =
      .ok (8 + 4) (Record.EndThread (tsn % U32LIM)) := by
  unfold parse_end_thread preceded
  refine pbind_hdr_enc (by norm_num [U32LIM]) ?_
  exact pmap_ok (parse_u32_enc tsn ext)

theorem parse_control_settings_enc (ts flags depth : Nat) (ext : List Nat) :
    parse_control_settings (beBytes 4 ts ++ (beBytes 4 6 ++ (beBytes 4 flags ++
      (beBytes 2 depth ++ ext)))) =
      .ok (8 + (4 + 2)) (Record.ControlSettings (flags % U32LIM) (depth % 65536)) := by
  unfold parse_control_settings preceded
  refine pbind_hdr_enc (by norm_num [U32LIM]) ?_
  refine pbind_enc2 (beBytes_length 4 flags) (parse_u32_enc flags _) ?_
  exact pmap_ok (parse_u16_enc depth ext)

theorem parse_cpu_sample_enc (cs : CpuSample) (rest : List Nat) :
    parse_cpu_sample (encCpuSample cs ++ rest) =
      .ok 8 (CpuSample.mk (cs.number_of_samples % U32LIM)
        (cs.stack_trace_serial_number % U32LIM)) := by
  unfold parse_cpu_sample encCpuSample
  simp only [List.append_assoc]
  refine presult_ok_arith (c := 4 + 4) ?_ (by norm_num)
  refine pbind_enc2 (beBytes_length 4 _) (parse_u32_enc cs.number_of_samples _) ?_
  exact pmap_ok (parse_u32_enc cs.stack_trace_serial_number rest)

theorem parse_cpu_samples_enc (ts ntraces : Nat) (samples : List CpuSample)
    (ext : List Nat) (hL : 8 + 8 * samples.length < U32LIM) :
    parse_cpu_samples (beBytes 4 ts ++ (beBytes 4 (8 + 8 * samples.length) ++
      (beBytes 4 samples.length ++ (beBytes 4 ntraces ++
      ((samples.map encCpuSample).flatten ++ ext))))) =
      .ok (8 + (4 + (4 + 8 * samples.length)))
        (Record.CpuSamples samples.length (ntraces % U32LIM)
          (samples.map (fun cs => CpuSample.mk (cs.number_of_samples % U32LIM)
            (cs.stack_trace_serial_number % U32LIM)))) := by
  unfold parse_cpu_samples preceded
  refine pbind_hdr_enc hL ?_
  have hk : samples.length < U32LIM := by
    unfold U32LIM at hL ⊢
    omega
  have hnum : parse_u32 (beBytes 4 samples.length ++ (beBytes 4 ntraces ++
      ((samples.map encCpuSample).flatten ++ ext))) = .ok 4 samples.length := by
    rw [parse_u32_enc, Nat.mod_eq_of_lt hk]
  refine pbind_enc2 (beBytes_length 4 samples.length) hnum ?_
  refine pbind_enc2 (beBytes_length 4 ntraces) (parse_u32_enc ntraces _) ?_
  have hc := pcount_enc encCpuSample
    (fun cs => CpuSample.mk (cs.number_of_samples % U32LIM)
      (cs.stack_trace_serial_number % U32LIM)) 8
    (fun cs => by simp [encCpuSample, beBytes_length])
    (fun cs rest => parse_cpu_sample_enc cs rest) samples ext
  exact pmap_ok hc

theorem parse_top_enc {tag : Nat} {body : List Nat} {c : Nat} {rv : Record × PState}
    (htag : tag % 256 = tag) (h : record_tag_decoder tag body = .ok c rv) :
    parse_hprof_record (PState.mk 0) (tag :: body) = .ok (1 + c) rv := by
  unfold parse_hprof_record
  rw [if_pos rfl]
  have h1 := parse_u8_cons tag body
  rw [htag] at h1
  exact pbind_ok h1 h

/-- C5: for every well-formed top-level record other than `HeapDumpEnd`,
the decoder consumes exactly `record_header.length + 9` bytes — one tag
byte, four timestamp bytes, four length bytes, and the declared body.
For `HEAP_DUMP`/`HEAP_DUMP_SEGMENT` records the decoder itself consumes
the 9 header bytes and the body is consumed by the sub-record parses,
which total the declared length, so the record again spans `length + 9`
bytes from its tag to the end of its body. -/
theorem record_consumes_length_plus_nine :
    (∀ (ts id : Nat) (payload ext : List Nat), ID_SIZE + payload.length < U32LIM →
      ∃ rv, parse_hprof_record (PState.mk 0) (encUtf8String ts id payload ++ ext) =
        .ok ((ID_SIZE + payload.length) + 9) rv) ∧
    (∀ (ts sn cid stsn cnid : Nat) (ext : List Nat),
      ∃ rv, parse_hprof_record (PState.mk 0) (encLoadClass ts sn cid stsn cnid ++ ext) =
        .ok (24 + 9) rv) ∧
    (∀ (ts sn : Nat) (ext : List Nat),
      ∃ rv, parse_hprof_record (PState.mk 0) (encUnloadClass ts sn ++ ext) =
        .ok (4 + 9) rv) ∧
    (∀ (ts sfid mnid msid sfnid csn ln : Nat) (ext : List Nat),
      ∃ rv, parse_hprof_record (PState.mk 0)
          (encStackFrame ts sfid mnid msid sfnid csn ln ++ ext) = .ok (40 + 9) rv) ∧
    (∀ (ts sn tsn : Nat) (frame_ids : List Nat) (ext : List Nat),
      12 + 8 * frame_ids.length < U32LIM →
      ∃ rv, parse_hprof_record (PState.mk 0) (encStackTrace ts sn tsn frame_ids ++ ext) =
        .ok ((12 + 8 * frame_ids.length) + 9) rv) ∧
    (∀ (ts flags cr tlb tli tba tia : Nat) (sites : List AllocationSite) (ext : List Nat),
      34 + 25 * sites.length < U32LIM →
      ∃ rv, parse_hprof_record (PState.mk 0)
          (encAllocationSites ts flags cr tlb tli tba tia sites ++ ext) =
        .ok ((34 + 25 * sites.length) + 9) rv) ∧
    (∀ (ts tsn toid stsn tnid tgnid tgpnid : Nat) (ext : List Nat),
      ∃ rv, parse_hprof_record (PState.mk 0)
          (encStartThread ts tsn toid stsn tnid tgnid tgpnid ++ ext) = .ok (40 + 9) rv) ∧
    (∀ (ts tlb tli tba tia : Nat) (ext : List Nat),
      ∃ rv, parse_hprof_record (PState.mk 0) (encHeapSummary ts tlb tli tba tia ++ ext) =
        .ok (24 + 9) rv) ∧
    (∀ (ts tsn : Nat) (ext : List Nat),
      ∃ rv, parse_hprof_record (PState.mk 0) (encEndThread ts tsn ++ ext) =
        .ok (4 + 9) rv) ∧
    (∀ (ts flags depth : Nat) (ext : List Nat),
      ∃ rv, parse_hprof_record (PState.mk 0) (encControlSettings ts flags depth ++ ext) =
        .ok (6 + 9) rv) ∧
    (∀ (ts ntraces : Nat) (samples : List CpuSample) (ext : List Nat),
      8 + 8 * samples.length < U32LIM →
      ∃ rv, parse_hprof_record (PState.mk 0) (encCpuSamples ts ntraces samples ++ ext) =
        .ok ((8 + 8 * samples.length) + 9) rv) ∧
    (∀ (tag ts L : Nat) (ext : List Nat),
      (tag = TAG_HEAP_DUMP ∨ tag = TAG_HEAP_DUMP_SEGMENT) → L < U32LIM →
      parse_hprof_record (PState.mk 0) (tag :: (beBytes 4 ts ++ (beBytes 4 L ++ ext))) =
        .ok 9 (Record.HeapDumpStart L, PState.mk L) ∧
      ∀ (fuel total : Nat), segConsume fuel (PState.mk L) ext = some total →
        total < U32LIM → 9 + total = L + 9) := by
  refine ⟨?_, ?_, ?_, ?_, ?_, ?_, ?_, ?_, ?_, ?_, ?_, ?_⟩
  · intro ts id payload ext hL
    have hbody := parse_utf8_string_enc ts id payload ext hL
    have hd : record_tag_decoder TAG_STRING =
        pmap (fun r => (r, PState.mk 0)) parse_utf8_string := rfl
    have hbody2 := pmap_ok (f := fun r => (r, PState.mk 0)) hbody
    rw [← hd] at hbody2
    have htop := parse_top_enc (by norm_num [TAG_STRING]) hbody2
    simp only [encUtf8String, List.cons_append, List.append_assoc]
    exact ⟨_, presult_ok_arith htop (by unfold ID_SIZE; omega)⟩
  · intro ts sn cid stsn cnid ext
    have hbody := parse_load_class_enc ts sn cid stsn cnid ext
    have hd : record_tag_decoder TAG_LOAD_CLASS =
        pmap (fun r => (r, PState.mk 0)) parse_load_class := rfl
    have hbody2 := pmap_ok (f := fun r => (r, PState.mk 0)) hbody
    rw [← hd] at hbody2
    have htop := parse_top_enc (by norm_num [TAG_LOAD_CLASS]) hbody2
    simp only [encLoadClass, List.cons_append, List.append_assoc]
    exact ⟨_, presult_ok_arith htop (by omega)⟩
  · intro ts sn ext
    have hbody := parse_unload_class_enc ts sn ext
    have hd : record_tag_decoder TAG_UNLOAD_CLASS =
        pmap (fun r => (r, PState.mk 0)) parse_unload_class := rfl
    have hbody2 := pmap_ok (f := fun r => (r, PState.mk 0)) hbody
    rw [← hd] at hbody2
    have htop := parse_top_enc (by norm_num [TAG_UNLOAD_CLASS]) hbody2
    simp only [encUnloadClass, List.cons_append, List.append_assoc]
    exact ⟨_, presult_ok_arith htop (by omega)⟩
  · intro ts sfid mnid msid sfnid csn ln ext
    have hbody := parse_stack_frame_enc ts sfid mnid msid sfnid csn ln ext
    have hd : record_tag_decoder TAG_STACK_FRAME =
        pmap (fun r => (r, PState.mk 0)) parse_stack_frame := rfl
    have hbody2 := pmap_ok (f := fun r => (r, PState.mk 0)) hbody
    rw [← hd] at hbody2
    have htop := parse_top_enc (by norm_num [TAG_STACK_FRAME]) hbody2
    simp only [encStackFrame, List.cons_append, List.append_assoc]
    exact ⟨_, presult_ok_arith htop (by omega)⟩
  · intro ts sn tsn frame_ids ext hL
    have hbody := parse_stack_trace_enc ts sn tsn frame_ids ext hL
    have hd : record_tag_decoder TAG_STACK_TRACE =
        pmap (fun r => (r, PState.mk 0)) parse_stack_trace := rfl
    have hbody2 := pmap_ok (f := fun r => (r, PState.mk 0)) hbody
    rw [← hd] at hbody2
    have htop := parse_top_enc (by norm_num [TAG_STACK_TRACE]) hbody2
    simp only [encStackTrace, List.cons_append, List.append_assoc]
    exact ⟨_, presult_ok_arith htop (by omega)⟩
  · intro ts flags cr tlb tli tba tia sites ext hL
    have hbody := parse_allocation_sites_enc ts flags cr tlb tli tba tia sites ext hL
    have hd : record_tag_decoder TAG_ALLOC_SITES =
        pmap (fun r => (r, PState.mk 0)) parse_allocation_sites := rfl
    have hbody2 := pmap_ok (f := fun r => (r, PState.mk 0)) hbody
    rw [← hd] at hbody2
    have htop := parse_top_enc (by norm_num [TAG_ALLOC_SITES]) hbody2
    simp only [encAllocationSites, List.cons_append, List.append_assoc]
    exact ⟨_, presult_ok_arith htop (by omega)⟩
  · intro ts tsn toid stsn tnid tgnid tgpnid ext
    have hbody := parse_start_thread_enc ts tsn toid stsn tnid tgnid tgpnid ext
    have hd : record_tag_decoder TAG_START_THREAD =
        pmap (fun r => (r, PState.mk 0)) parse_start_thread := rfl
    have hbody2 := pmap_ok (f := fun r => (r, PState.mk 0)) hbody
    rw [← hd] at hbody2
    have htop := parse_top_enc (by norm_num [TAG_START_THREAD]) hbody2
    simp only [encStartThread, List.cons_append, List.append_assoc]
    exact ⟨_, presult_ok_arith htop (by omega)⟩
  · intro ts tlb tli tba tia ext
    have hbody := parse_heap_summary_enc ts tlb tli tba tia ext
    have hd : record_tag_decoder TAG_HEAP_SUMMARY =
        pmap (fun r => (r, PState.mk 0)) parse_heap_summary := rfl
    have hbody2 := pmap_ok (f := fun r => (r, PState.mk 0)) hbody
    rw [← hd] at hbody2
    have htop := parse_top_enc (by norm_num [TAG_HEAP_SUMMARY]) hbody2
    simp only [encHeapSummary, List.cons_append, List.append_assoc]
    exact ⟨_, presult_ok_arith htop (by omega)⟩
  · intro ts tsn ext
    have hbody := parse_end_thread_enc ts tsn ext
    have hd : record_tag_decoder TAG_END_THREAD =
        pmap (fun r => (r, PState.mk 0)) parse_end_thread := rfl
    have hbody2 := pmap_ok (f := fun r => (r, PState.mk 0)) hbody
    rw [← hd] at hbody2
    have htop := parse_top_enc (by norm_num [TAG_END_THREAD]) hbody2
    simp only [encEndThread, List.cons_append, List.append_assoc]
    exact ⟨_, presult_ok_arith htop (by omega)⟩
  · intro ts flags depth ext
    have hbody := parse_control_settings_enc ts flags depth ext
    have hd : record_tag_decoder TAG_CONTROL_SETTING =
        pmap (fun r => (r, PState.mk 0)) parse_control_settings := rfl
    have hbody2 := pmap_ok (f := fun r => (r, PState.mk 0)) hbody
    rw [← hd] at hbody2
    have htop := parse_top_enc (by norm_num [TAG_CONTROL_SETTING]) hbody2
    simp only [encControlSettings, List.cons_append, List.append_assoc]
    exact ⟨_, presult_ok_arith htop (by omega)⟩
  · intro ts ntraces samples ext hL
    have hbody := parse_cpu_samples_enc ts ntraces samples ext hL
    have hd : record_tag_decoder TAG_CPU_SAMPLES =
        pmap (fun r => (r, PState.mk 0)) parse_cpu_samples := rfl
    have hbody2 := pmap_ok (f := fun r => (r, PState.mk 0)) hbody
    rw [← hd] at hbody2
    have htop := parse_top_enc (by norm_num [TAG_CPU_SAMPLES]) hbody2
    simp only [encCpuSamples, List.cons_append, List.append_assoc]
    exact ⟨_, presult_ok_arith htop (by omega)⟩
  · intro tag ts L ext htag hL
    refine ⟨parse_heap_dump_start tag ts L ext htag hL, ?_⟩
    intro fuel total hseg hlt
    have h1 : total % U32LIM = L := segConsume_sum fuel (PState.mk L) ext total hL hseg
    rw [Nat.mod_eq_of_lt hlt] at h1
    omega

/-! ## Result recorder (`src/result_recorder.rs`)

The i32 tag counters are modeled as `Int` with the wrapping increment of
a release-mode build (`winc32`); the u64 instance/element counters
cannot realistically be incremented 2^64 times and are plain `Nat`,
while every u32/u64 arithmetic step of the size accounting is reduced
by the appropriate modulus.  Hash maps are modeled as functions to
`Option`. -/

structure ClassInfo where
  super_class_object_id : Nat
  instance_size : Nat
deriving DecidableEq

def ClassInfo.new (super_class_object_id instance_size : Nat) : ClassInfo :=
  ⟨super_class_object_id, instance_size⟩

structure ClassInstanceCounter where
  number_of_instances : Nat
deriving DecidableEq

def ClassInstanceCounter.empty : ClassInstanceCounter := ⟨0⟩

def ClassInstanceCounter.add_instance (c : ClassInstanceCounter) : ClassInstanceCounter :=
  ⟨c.number_of_instances + 1⟩

structure ArrayCounter where
  number_of_arrays : Nat
  max_size_seen : Nat
  total_number_of_elements : Nat
deriving DecidableEq

def ArrayCounter.empty : ArrayCounter := ⟨0, 0, 0⟩

def ArrayCounter.add_elements_from_array (ac : ArrayCounter) (elements : Nat) : ArrayCounter :=
  { number_of_arrays := ac.number_of_arrays + 1
    max_size_seen := if elements > ac.max_size_seen then elements else ac.max_size_seen
    total_number_of_elements := ac.total_number_of_elements + elements }

/-- Wrapping i32 increment (release-mode `+= 1`). -/
def winc32 (x : Int) : Int := if x + 1 < 2147483648 then x + 1 else -2147483648

def updMap {α : Type} (m : Nat → Option α) (k : Nat) (v : α) : Nat → Option α :=
  fun k' => if k' = k then some v else m k'

def updMapF {α : Type} (m : FieldType → Option α) (k : FieldType) (v : α) :
    FieldType → Option α :=
  fun k' => if k' = k then some v else m k'

structure ResultRecorder where
  id_size : Nat
  list_strings : Bool
  top : Nat
  classes_unloaded : Int
  stack_frames : Int
  stack_traces : Int
  start_threads : Int
  end_threads : Int
  heap_summaries : Int
  heap_dumps : Int
  allocation_sites : Int
  control_settings : Int
  cpu_samples : Int
  heap_dump_segments_all_sub_records : Int
  heap_dump_segments_gc_root_unknown : Int
  heap_dump_segments_gc_root_thread_object : Int
  heap_dump_segments_gc_root_jni_global : Int
  heap_dump_segments_gc_root_jni_local : Int
  heap_dump_segments_gc_root_java_frame : Int
  heap_dump_segments_gc_root_native_stack : Int
  heap_dump_segments_gc_root_sticky_class : Int
  heap_dump_segments_gc_root_thread_block : Int
  heap_dump_segments_gc_root_monitor_used : Int
  heap_dump_segments_gc_object_array_dump : Int
  heap_dump_segments_gc_instance_dump : Int
  heap_dump_segments_gc_primitive_array_dump : Int
  heap_dump_segments_gc_class_dump : Int
  utf8_strings_by_id : Nat → Option (List Nat)
  class_data : List LoadClassData
  class_data_by_id : Nat → Option Nat
  class_data_by_serial_number : Nat → Option Nat
  classes_single_instance_size_by_id : Nat → Option ClassInfo
  classes_all_instance_total_size_by_id : Nat → Option ClassInstanceCounter
  primitive_array_counters : FieldType → Option ArrayCounter
  object_array_counters : Nat → Option ArrayCounter
  stack_trace_by_serial_number : Nat → Option StackTraceData
  stack_frame_by_id : Nat → Option StackFrameData

def ResultRecorder.new (id_size : Nat) (list_strings : Bool) (top : Nat) : ResultRecorder :=
  { id_size := id_size
    list_strings := list_strings
    top := top
    classes_unloaded := 0
    stack_frames := 0
    stack_traces := 0
    start_threads := 0
    end_threads := 0
    heap_summaries := 0
    heap_dumps := 0
    allocation_sites := 0
    control_settings := 0
    cpu_samples := 0
    heap_dump_segments_all_sub_records := 0
    heap_dump_segments_gc_root_unknown := 0
    heap_dump_segments_gc_root_thread_object := 0
    heap_dump_segments_gc_root_jni_global := 0
    heap_dump_segments_gc_root_jni_local := 0
    heap_dump_segments_gc_root_java_frame := 0
    heap_dump_segments_gc_root_native_stack := 0
    heap_dump_segments_gc_root_sticky_class := 0
    heap_dump_segments_gc_root_thread_block := 0
    heap_dump_segments_gc_root_monitor_used := 0
    heap_dump_segments_gc_object_array_dump := 0
    heap_dump_segments_gc_instance_dump := 0
    heap_dump_segments_gc_primitive_array_dump := 0
    heap_dump_segments_gc_class_dump := 0
    utf8_strings_by_id := fun _ => none
    class_data := []
    class_data_by_id := fun _ => none
    class_data_by_serial_number := fun _ => none
    classes_single_instance_size_by_id := fun _ => none
    classes_all_instance_total_size_by_id := fun _ => none
    primitive_array_counters := fun _ => none
    object_array_counters := fun _ => none
    stack_trace_by_serial_number := fun _ => none
    stack_frame_by_id := fun _ => none }

/-- One record of `ResultRecorder::record_records`. -/
def record_record (st : ResultRecorder) (record : Record) : ResultRecorder :=
  match record with
  | .Utf8String id str =>
    { st with utf8_strings_by_id := updMap st.utf8_strings_by_id id str }
  | .LoadClass d =>
    { st with
      class_data := st.class_data ++ [d]
      class_data_by_id := updMap st.class_data_by_id d.class_object_id st.class_data.length
      class_data_by_serial_number :=
        updMap st.class_data_by_serial_number d.serial_number st.class_data.length }
  | .UnloadClass _ => { st with classes_unloaded := winc32 st.classes_unloaded }
  | .StackFrame d =>
    { st with
      stack_frames := winc32 st.stack_frames
      stack_frame_by_id := updMap st.stack_frame_by_id d.stack_frame_id d }
  | .StackTrace d =>
    { st with
      stack_traces := winc32 st.stack_traces
      stack_trace_by_serial_number :=
        updMap st.stack_trace_by_serial_number d.serial_number d }
  | .StartThread _ _ _ _ _ _ => { st with start_threads := winc32 st.start_threads }
  | .EndThread _ => { st with end_threads := winc32 st.end_threads }
  | .AllocationSites _ _ _ _ _ _ _ _ =>
    { st with allocation_sites := winc32 st.allocation_sites }
  | .HeapSummary _ _ _ _ => { st with heap_summaries := winc32 st.heap_summaries }
  | .ControlSettings _ _ => { st with control_settings := winc32 st.control_settings }
  | .CpuSamples _ _ _ => { st with cpu_samples := winc32 st.cpu_samples }
  | .HeapDumpEnd _ => st
  | .HeapDumpStart _ => { st with heap_dumps := winc32 st.heap_dumps }
  | .GcSegment g =>
    let st1 := { st with
      heap_dump_segments_all_sub_records := winc32 st.heap_dump_segments_all_sub_records }
    match g with
    | .RootUnknown _ =>
      { st1 with
        heap_dump_segments_gc_root_unknown := winc32 st1.heap_dump_segments_gc_root_unknown }
    | .RootThreadObject _ _ _ =>
      { st1 with
        heap_dump_segments_gc_root_thread_object := winc32 st1.heap_dump_segments_gc_root_thread_object }
    | .RootJniGlobal _ _ =>
      { st1 with
        heap_dump_segments_gc_root_jni_global := winc32 st1.heap_dump_segments_gc_root_jni_global }
    | .RootJniLocal _ _ _ =>
      { st1 with
        heap_dump_segments_gc_root_jni_local := winc32 st1.heap_dump_segments_gc_root_jni_local }
    | .RootJavaFrame _ _ _ =>
      { st1 with
        heap_dump_segments_gc_root_java_frame := winc32 st1.heap_dump_segments_gc_root_java_frame }
    | .RootNativeStack _ _ =>
      { st1 with
        heap_dump_segments_gc_root_native_stack := winc32 st1.heap_dump_segments_gc_root_native_stack }
    | .RootStickyClass _ =>
      { st1 with
        heap_dump_segments_gc_root_sticky_class := winc32 st1.heap_dump_segments_gc_root_sticky_class }
    | .RootThreadBlock _ _ =>
      { st1 with
        heap_dump_segments_gc_root_thread_block := winc32 st1.heap_dump_segments_gc_root_thread_block }
    | .RootMonitorUsed _ =>
      { st1 with
        heap_dump_segments_gc_root_monitor_used := winc32 st1.heap_dump_segments_gc_root_monitor_used }
    | .InstanceDump _ _ class_object_id _ =>
      { st1 with
        classes_all_instance_total_size_by_id :=
          updMap st1.classes_all_instance_total_size_by_id class_object_id
            (((st1.classes_all_instance_total_size_by_id class_object_id).getD
              ClassInstanceCounter.empty).add_instance)
        heap_dump_segments_gc_instance_dump :=
          winc32 st1.heap_dump_segments_gc_instance_dump }
    | .ObjectArrayDump _ _ number_of_elements array_class_id =>
      { st1 with
        object_array_counters :=
          updMap st1.object_array_counters array_class_id
            (((st1.object_array_counters array_class_id).getD
              ArrayCounter.empty).add_elements_from_array number_of_elements)
        heap_dump_segments_gc_object_array_dump :=
          winc32 st1.heap_dump_segments_gc_object_array_dump }
    | .PrimitiveArrayDump _ _ number_of_elements element_type =>
      { st1 with
        primitive_array_counters :=
          updMapF st1.primitive_array_counters element_type
            (((st1.primitive_array_counters element_type).getD
              ArrayCounter.empty).add_elements_from_array number_of_elements)
        heap_dump_segments_gc_primitive_array_dump :=
          winc32 st1.heap_dump_segments_gc_primitive_array_dump }
    | .ClassDump cd =>
      { st1 with
        classes_single_instance_size_by_id :=
          (match st1.classes_single_instance_size_by_id cd.class_object_id with
           | some _ => st1.classes_single_instance_size_by_id
           | none => updMap st1.classes_single_instance_size_by_id cd.class_object_id
               (ClassInfo.new cd.super_class_object_id cd.instance_size))
        heap_dump_segments_gc_class_dump :=
          winc32 st1.heap_dump_segments_gc_class_dump }

def record_records (st : ResultRecorder) (records : List Record) : ResultRecorder :=
  records.foldl record_record st

/-- `get_class_name_string` (name bytes, with the `/` → `.` substitution;
`none` models the `expect` panic when a lookup fails). -/
def get_class_name_string (st : ResultRecorder) (class_id : Nat) : Option (List Nat) :=
  ((st.class_data_by_id class_id).bind (fun data_index => st.class_data.get? data_index)
    |>.bind (fun class_data => st.utf8_strings_by_id class_data.class_name_id)
    |>.map (List.map (fun b => if b = 47 then 46 else b)))

/-- The superclass-chain accumulation loop of `render_memory_usage`
(u32 additions; fuel-indexed, `none` on a missing class or a chain that
does not reach `super_class_object_id = 0` within the fuel). -/
def chain_size_loop (st : ResultRecorder) (fuel : Nat) (parent_class_id : Nat)
    (size : Nat) : Option Nat :=
  if parent_class_id = 0 then some size
  else
    match fuel with
    | 0 => none
    | fuel' + 1 =>
      match st.classes_single_instance_size_by_id parent_class_id with
      | none => none
      | some ci =>
        chain_size_loop st fuel' ci.super_class_object_id ((size + ci.instance_size) % U32LIM)

/-- The instance-size list along the superclass chain (used to state the
claims' "sum of instance_size over the superclass chain"). -/
def chain_sizes (st : ResultRecorder) (fuel : Nat) (parent_class_id : Nat) :
    Option (List Nat) :=
  if parent_class_id = 0 then some []
  else
    match fuel with
    | 0 => none
    | fuel' + 1 =>
      match st.classes_single_instance_size_by_id parent_class_id with
      | none => none
      | some ci =>
        (chain_sizes st fuel' ci.super_class_object_id).map
          (fun l => ci.instance_size :: l)

/-- Per-class row of `render_memory_usage`'s `classes_dump_vec`:
`(class_name, instance count, per-instance size, total size)`. -/
def render_class_entry (st : ResultRecorder) (fuel : Nat) (class_id : Nat)
    (v : ClassInstanceCounter) : Option (List Nat × Nat × Nat × Nat) :=
  match get_class_name_string st class_id with
  | none => none
  | some class_name =>
    match st.classes_single_instance_size_by_id class_id with
    | none => none
    | some ci =>
      match chain_size_loop st fuel ci.super_class_object_id (ci.instance_size % U32LIM) with
      | none => none
      | some size0 =>
        let size1 := (size0 + (st.id_size + 4 + 4)) % U32LIM
        let size2 := (size1 + size1 % 8) % U32LIM
        let total_size := (size2 * v.number_of_instances) % U64LIM
        some (class_name, v.number_of_instances, size2, total_size)

def primitive_byte_size (field_type : FieldType) : Option Nat :=
  match field_type with
  | .Byte | .Bool => some 1
  | .Char | .Short => some 2
  | .Float | .Int => some 4
  | .Double | .Long => some 8
  | .Object => none

/-- Per-element-type row of `render_memory_usage`'s primitive-array
table: `(array count, largest single array, total allocation)` (u64
arithmetic; `none` models the panic on `Object`). -/
def render_primitive_entry (st : ResultRecorder) (field_type : FieldType)
    (ac : ArrayCounter) : Option (Nat × Nat × Nat) :=
  match primitive_byte_size field_type with
  | none => none
  | some primitive_size =>
    let ref_size := st.id_size
    let array_header_size := ref_size + 4 + 4
    let cost_of_all_array_headers := (array_header_size * ac.number_of_arrays) % U64LIM
    let cost_of_all_values := (primitive_size * ac.total_number_of_elements) % U64LIM
    let estimated_cost_of_all_padding := (ac.number_of_arrays * 4) % U64LIM
    let cost_data_largest_array := (primitive_size * ac.max_size_seen) % U64LIM
    let cost_padding_largest_array :=
      ((array_header_size + cost_data_largest_array) % U64LIM) % 8
    some (ac.number_of_arrays,
      (array_header_size + cost_data_largest_array + cost_padding_largest_array) % U64LIM,
      (cost_of_all_array_headers + cost_of_all_values + estimated_cost_of_all_padding)
        % U64LIM)

/-! ## File header and `slurp_header` (`src/primitive_parsers.rs`,
`src/parser/file_header_parser.rs`, `src/slurp.rs`) -/

/-- `terminated(take_until("\0"), tag("\0"))`: bytes before the first
NUL, consuming the NUL. -/
def parse_c_string : Decoder (List Nat) := fun xs =>
  match List.findIdx? (fun b => b = 0) xs with
  | some k => .ok (k + 1) (xs.take k)
  | none => .incomplete 1

structure FileHeader where
  format : List Nat
  size_pointers : Nat
  timestamp : Nat
deriving DecidableEq

def parse_file_header : Decoder FileHeader :=
  pbind parse_c_string (fun format =>
  pbind parse_u32 (fun size_pointers =>
  pmap (fun timestamp => FileHeader.mk format size_pointers timestamp) parse_u64))

inductive HprofSlurpError : Type where
  | InputFileNotFound
  | InvalidTopPositiveInt
  | InvalidIdSize
  | InvalidHeaderSize
  | InvalidHprofFile
  | UnsupportedIdSize
  | StdIoError
  | StdThreadError
deriving DecidableEq

def FILE_HEADER_LENGTH : Nat := 31

/-- `slurp_header`: `read_exact` on a file shorter than
`FILE_HEADER_LENGTH` fails with the propagated io error (`StdIoError`);
otherwise the 31-byte prefix is parsed, any nom error becomes
`InvalidHprofFile`, and the id-size / leftover-bytes invariants are
checked in source order.  `rest.is_empty` is `consumed =
FILE_HEADER_LENGTH` on the 31-byte buffer. -/
def slurp_header (file : List Nat) : Except HprofSlurpError FileHeader :=
  if file.length < FILE_HEADER_LENGTH then .error .StdIoError
  else
    match parse_file_header (file.take FILE_HEADER_LENGTH) with
    | .ok c header =>
      if header.size_pointers ≠ 4 ∧ header.size_pointers ≠ 8 then .error .InvalidIdSize
      else if header.size_pointers = 4 then .error .UnsupportedIdSize
      else if c ≠ FILE_HEADER_LENGTH then .error .InvalidHeaderSize
      else .ok header
    | _ => .error .InvalidHprofFile

/-- C8: on a file of at least 31 bytes whose 31-byte prefix parses as a
file header, `slurp_header` returns `UnsupportedIdSize` when the
pointer-size field is 4 and `InvalidIdSize` when it is neither 4 nor 8;
and whenever `slurp_header` succeeds the pointer size is 8 and the
header parse consumed all 31 bytes. -/
theorem slurp_header_id_size_checks :
    (∀ (file : List Nat) (c : Nat) (h : FileHeader),
      FILE_HEADER_LENGTH ≤ file.length →
      parse_file_header (file.take FILE_HEADER_LENGTH) = .ok c h →
      h.size_pointers = 4 →
      slurp_header file = .error .UnsupportedIdSize) ∧
    (∀ (file : List Nat) (c : Nat) (h : FileHeader),
      FILE_HEADER_LENGTH ≤ file.length →
      parse_file_header (file.take FILE_HEADER_LENGTH) = .ok c h →
      h.size_pointers ≠ 4 → h.size_pointers ≠ 8 →
      slurp_header file = .error .InvalidIdSize) ∧
    (∀ (file : List Nat) (h : FileHeader),
      slurp_header file = .ok h →
      h.size_pointers = 8 ∧
      ∃ c, parse_file_header (file.take FILE_HEADER_LENGTH) = .ok c h ∧
        c = FILE_HEADER_LENGTH) := by
  refine ⟨?_, ?_, ?_⟩
  · intro file c h hlen hp hs4
    unfold slurp_header
    rw [if_neg (by omega), hp]
    simp [hs4]
  · intro file c h hlen hp hs4 hs8
    unfold slurp_header
    rw [if_neg (by omega), hp]
    simp [hs4, hs8]
  · intro file h hok
    unfold slurp_header at hok
    split at hok
    · cases hok
    · split at hok
      · rename_i c header heq
        split at hok
        · cases hok
        · split at hok
          · cases hok
          · split at hok
            · cases hok
            · rename_i hcond h4 hc
              cases hok
              refine ⟨?_, c, heq, by omega⟩
              rcases not_and_or.mp hcond with h | h
              · exact absurd (not_not.mp h) h4
              · exact not_not.mp h
      · cases hok

theorem slurp_header_id_size_checks_witness :
    slurp_header [74, 65, 86, 65, 32, 80, 82, 79, 70, 73, 76, 69, 32, 49, 46, 48, 46, 50,
        0, 0, 0, 0, 4, 0, 0, 1, 118, 111, 186, 173, 167] = .error .UnsupportedIdSize ∧
    slurp_header [74, 65, 86, 65, 32, 80, 82, 79, 70, 73, 76, 69, 32, 49, 46, 48, 46, 50,
        0, 0, 0, 0, 5, 0, 0, 1, 118, 111, 186, 173, 167] = .error .InvalidIdSize ∧
    (FileHeader.mk [74, 65, 86, 65, 32, 80, 82, 79, 70, 73, 76, 69, 32, 49, 46, 48, 46, 50]
        8 1608192273831).size_pointers = 8 :=
  ⟨slurp_header_id_size_checks.1
      [74, 65, 86, 65, 32, 80, 82, 79, 70, 73, 76, 69, 32, 49, 46, 48, 46, 50,
        0, 0, 0, 0, 4, 0, 0, 1, 118, 111, 186, 173, 167] 31
      (FileHeader.mk [74, 65, 86, 65, 32, 80, 82, 79, 70, 73, 76, 69, 32, 49, 46, 48, 46, 50]
        4 1608192273831)
      (by decide) (by decide) rfl,
   slurp_header_id_size_checks.2.1
      [74, 65, 86, 65, 32, 80, 82, 79, 70, 73, 76, 69, 32, 49, 46, 48, 46, 50,
        0, 0, 0, 0, 5, 0, 0, 1, 118, 111, 186, 173, 167] 31
      (FileHeader.mk [74, 65, 86, 65, 32, 80, 82, 79, 70, 73, 76, 69, 32, 49, 46, 48, 46, 50]
        5 1608192273831)
      (by decide) (by decide) (by decide) (by decide),
   (slurp_header_id_size_checks.2.2
      [74, 65, 86, 65, 32, 80, 82, 79, 70, 73, 76, 69, 32, 49, 46, 48, 46, 50,
        0, 0, 0, 0, 8, 0, 0, 1, 118, 111, 186, 173, 167]
      (FileHeader.mk [74, 65, 86, 65, 32, 80, 82, 79, 70, 73, 76, 69, 32, 49, 46, 48, 46, 50]
        8 1608192273831)
      rfl).1⟩

/-- C9 counterexample: a file shorter than 31 bytes makes `read_exact`
fail, so `slurp_header` propagates the io error (`StdIoError`); it does
not reach the `InvalidHeaderSize` check. -/
theorem short_file_error_cex :
    slurp_header [] = .error .StdIoError ∧
    (Except.error HprofSlurpError.StdIoError : Except HprofSlurpError FileHeader) ≠
      .error .InvalidHeaderSize := by
  refine ⟨rfl, ?_⟩
  intro h
  injection h with h2
  exact absurd h2 (by decide)

/-- C9 (amended): every file shorter than 31 bytes is rejected before
any record is parsed, but the returned error is the propagated io error
`StdIoError` from `read_exact`, not `InvalidHeaderSize`. -/
theorem short_file_io_error (file : List Nat) (hlen : file.length < FILE_HEADER_LENGTH) :
    slurp_header file = .error .StdIoError := by
  unfold slurp_header
  rw [if_pos hlen]

theorem short_file_io_error_witness :
    [(3 : Nat)].length < FILE_HEADER_LENGTH ∧
      slurp_header [3] = .error .StdIoError :=
  ⟨by decide, short_file_io_error [3] (by decide)⟩

/-- When the chain terminates and no u32 overflow occurs, the wrapping
accumulation loop computes the plain sum of the chain sizes. -/
theorem chain_size_loop_sum (st : ResultRecorder) :
    ∀ (fuel parent acc : Nat) (l : List Nat),
      chain_sizes st fuel parent = some l →
      acc + l.sum < U32LIM →
      chain_size_loop st fuel parent acc = some (acc + l.sum) := by
  intro fuel
  induction fuel with
  | zero =>
    intro parent acc l hc hb
    unfold chain_sizes at hc
    unfold chain_size_loop
    by_cases h0 : parent = 0
    · rw [if_pos h0] at hc
      rw [if_pos h0]
      cases hc
      simp
    · rw [if_neg h0] at hc
      cases hc
  | succ fuel ih =>
    intro parent acc l hc hb
    unfold chain_sizes at hc
    unfold chain_size_loop
    by_cases h0 : parent = 0
    · rw [if_pos h0] at hc
      rw [if_pos h0]
      cases hc
      simp
    · rw [if_neg h0] at hc
      rw [if_neg h0]
      have hc2 : (match st.classes_single_instance_size_by_id parent with
          | none => none
          | some ci =>
            Option.map (fun l => ci.instance_size :: l)
              (chain_sizes st fuel ci.super_class_object_id)) = some l := hc
      show (match st.classes_single_instance_size_by_id parent with
          | none => none
          | some ci =>
            chain_size_loop st fuel ci.super_class_object_id
              ((acc + ci.instance_size) % U32LIM)) = some (acc + l.sum)
      cases hci : st.classes_single_instance_size_by_id parent with
      | none =>
        rw [hci] at hc2
        exact Option.noConfusion hc2
      | some ci =>
        rw [hci] at hc2
        have hc3 : Option.map (fun l => ci.instance_size :: l)
            (chain_sizes st fuel ci.super_class_object_id) = some l := hc2
        show chain_size_loop st fuel ci.super_class_object_id
            ((acc + ci.instance_size) % U32LIM) = some (acc + l.sum)
        cases hrec : chain_sizes st fuel ci.super_class_object_id with
        | none => rw [hrec] at hc3; cases hc3
        | some l' =>
          rw [hrec] at hc3
          simp only [Option.map_some'] at hc3
          cases hc3
          have hmod : (acc + ci.instance_size) % U32LIM = acc + ci.instance_size := by
            apply Nat.mod_eq_of_lt
            have : (ci.instance_size :: l').sum = ci.instance_size + l'.sum := by simp
            omega
          rw [hmod]
          have hb' : acc + ci.instance_size + l'.sum < U32LIM := by
            have : (ci.instance_size :: l').sum = ci.instance_size + l'.sum := by simp
            omega
          have := ih ci.super_class_object_id (acc + ci.instance_size) l' hrec hb'
          rw [this]
          have : (ci.instance_size :: l').sum = ci.instance_size + l'.sum := by simp
          congr 1
          omega

/-- C3: for a recorder with `id_size = 8`, every class with at least
one recorded instance whose superclass chain (via `class_info`)
terminates at `super_class_object_id = 0`, and absent u32/u64 overflow,
the reported per-instance size is `s + (s % 8)` where `s` is the sum of
`instance_size` over the class and its superclasses plus the 16-byte
object header (`id_size + 4 + 4`), and the reported total is that
per-instance size times the instance count. -/
theorem instance_memory_accounting (st : ResultRecorder) (fuel class_id : Nat)
    (v : ClassInstanceCounter) (ci : ClassInfo) (sizes : List Nat) (name : List Nat)
    (hid : st.id_size = 8)
    (hv : st.classes_all_instance_total_size_by_id class_id = some v)
    (hname : get_class_name_string st class_id = some name)
    (hci : st.classes_single_instance_size_by_id class_id = some ci)
    (hchain : chain_sizes st fuel ci.super_class_object_id = some sizes)
    (hs : ci.instance_size + sizes.sum + 16 +
        (ci.instance_size + sizes.sum + 16) % 8 < U32LIM)
    (ht : (ci.instance_size + sizes.sum + 16 + (ci.instance_size + sizes.sum + 16) % 8)
        * v.number_of_instances < U64LIM) :
    render_class_entry st fuel class_id v =
      some (name, v.number_of_instances,
        ci.instance_size + sizes.sum + 16 + (ci.instance_size + sizes.sum + 16) % 8,
        (ci.instance_size + sizes.sum + 16 + (ci.instance_size + sizes.sum + 16) % 8)
          * v.number_of_instances) := by
  unfold render_class_entry
  rw [hname, hci]
  have hacc : ci.instance_size % U32LIM = ci.instance_size :=
    Nat.mod_eq_of_lt (by unfold U32LIM at hs ⊢; omega)
  have hloop := chain_size_loop_sum st fuel ci.super_class_object_id ci.instance_size
    sizes hchain (by unfold U32LIM at hs ⊢; omega)
  simp only [hacc, hloop, hid]
  have e1 : (ci.instance_size + sizes.sum + (8 + 4 + 4)) % U32LIM
      = ci.instance_size + sizes.sum + 16 := by
    apply Nat.mod_eq_of_lt
    unfold U32LIM at hs ⊢
    omega
  have e2 : (ci.instance_size + sizes.sum + 16 +
        (ci.instance_size + sizes.sum + 16) % 8) % U32LIM
      = ci.instance_size + sizes.sum + 16 + (ci.instance_size + sizes.sum + 16) % 8 :=
    Nat.mod_eq_of_lt hs
  have e3 : ((ci.instance_size + sizes.sum + 16 +
        (ci.instance_size + sizes.sum + 16) % 8) * v.number_of_instances) % U64LIM
      = (ci.instance_size + sizes.sum + 16 + (ci.instance_size + sizes.sum + 16) % 8)
          * v.number_of_instances :=
    Nat.mod_eq_of_lt ht
  rw [e1, e2, e3]

theorem instance_memory_accounting_witness :
    render_class_entry
      (record_records (ResultRecorder.new 8 false 20)
        [Record.Utf8String 100 [77, 121],
         Record.LoadClass (LoadClassData.mk 1 10 0 100),
         Record.GcSegment (GcRecord.ClassDump (ClassDumpData.mk 10 0 0 16 [] [] [])),
         Record.GcSegment (GcRecord.InstanceDump 7 0 10 16)])
      20 10 (ClassInstanceCounter.mk 1) =
      some ([77, 121], 1, 32, 32) := by
  have h := instance_memory_accounting
    (record_records (ResultRecorder.new 8 false 20)
      [Record.Utf8String 100 [77, 121],
       Record.LoadClass (LoadClassData.mk 1 10 0 100),
       Record.GcSegment (GcRecord.ClassDump (ClassDumpData.mk 10 0 0 16 [] [] [])),
       Record.GcSegment (GcRecord.InstanceDump 7 0 10 16)])
    20 10 (ClassInstanceCounter.mk 1) (ClassInfo.mk 0 16) [] [77, 121]
    (by decide) (by decide) (by decide) (by decide) (by decide) (by decide) (by decide)
  simpa using h

/-- C4 counterexample: a single byte array of length 1 gives largest
single array `x + (x % 8) = 17 + 1 = 18`, not `17` rounded up to an
8-byte boundary (`24`); the total-allocation formula (`21`) does hold. -/
theorem primitive_array_largest_cex :
    (record_records (ResultRecorder.new 8 false 20)
        [Record.GcSegment (GcRecord.PrimitiveArrayDump 1 0 1 FieldType.Byte)]).primitive_array_counters
        FieldType.Byte = some (ArrayCounter.mk 1 1 1) ∧
    render_primitive_entry
        (record_records (ResultRecorder.new 8 false 20)
          [Record.GcSegment (GcRecord.PrimitiveArrayDump 1 0 1 FieldType.Byte)])
        FieldType.Byte (ArrayCounter.mk 1 1 1) = some (1, 18, 21) ∧
    (18 : Nat) ≠ 24 := by
  refine ⟨by decide, by decide, by decide⟩

/-- C4 (amended): with `id_size = 8` and no u64 overflow, the total
allocation for a primitive element type is
`count × 16 + element_size × total_elements + count × 4` as claimed,
but the largest single array is `x + (x % 8)` with
`x = 16 + element_size × max_seen_len` — `x` plus `x mod 8`, not `x`
rounded up to an 8-byte boundary. -/
theorem primitive_array_entry_formulas (st : ResultRecorder) (ft : FieldType)
    (ps : Nat) (ac : ArrayCounter)
    (hid : st.id_size = 8)
    (hps : primitive_byte_size ft = some ps)
    (hl : 16 + ps * ac.max_size_seen + (16 + ps * ac.max_size_seen) % 8 < U64LIM)
    (ht : 16 * ac.number_of_arrays + ps * ac.total_number_of_elements
        + ac.number_of_arrays * 4 < U64LIM) :
    render_primitive_entry st ft ac =
      some (ac.number_of_arrays,
        16 + ps * ac.max_size_seen + (16 + ps * ac.max_size_seen) % 8,
        16 * ac.number_of_arrays + ps * ac.total_number_of_elements
          + ac.number_of_arrays * 4) := by
  unfold render_primitive_entry
  rw [hps]
  simp only [hid]
  refine congrArg some (Prod.ext rfl (Prod.ext ?_ ?_))
  · dsimp only
    generalize ps * ac.max_size_seen = pm at hl ⊢
    unfold U64LIM at hl ⊢
    omega
  · dsimp only
    generalize ps * ac.total_number_of_elements = pt at ht ⊢
    generalize ac.number_of_arrays = n at ht ⊢
    unfold U64LIM at ht ⊢
    omega

theorem primitive_array_entry_formulas_witness :
    render_primitive_entry
      (record_records (ResultRecorder.new 8 false 20)
        [Record.GcSegment (GcRecord.PrimitiveArrayDump 1 0 5 FieldType.Int)])
      FieldType.Int (ArrayCounter.mk 1 5 5) = some (1, 40, 40) := by
  have h := primitive_array_entry_formulas
    (record_records (ResultRecorder.new 8 false 20)
      [Record.GcSegment (GcRecord.PrimitiveArrayDump 1 0 5 FieldType.Int)])
    FieldType.Int 4 (ArrayCounter.mk 1 5 5)
    (by decide) (by decide) (by decide) (by decide)
  simpa using h

/-- The thirteen per-sub-record-tag counters of the recorder, in
declaration order. -/
def gcCounters (st : ResultRecorder) : List Int :=
  [st.heap_dump_segments_gc_root_unknown,
   st.heap_dump_segments_gc_root_thread_object,
   st.heap_dump_segments_gc_root_jni_global,
   st.heap_dump_segments_gc_root_jni_local,
   st.heap_dump_segments_gc_root_java_frame,
   st.heap_dump_segments_gc_root_native_stack,
   st.heap_dump_segments_gc_root_sticky_class,
   st.heap_dump_segments_gc_root_thread_block,
   st.heap_dump_segments_gc_root_monitor_used,
   st.heap_dump_segments_gc_object_array_dump,
   st.heap_dump_segments_gc_instance_dump,
   st.heap_dump_segments_gc_primitive_array_dump,
   st.heap_dump_segments_gc_class_dump]

def isGcSegment : Record → Bool
  | .GcSegment _ => true
  | _ => false

def countSeg (l : List Record) : Nat := (l.filter isGcSegment).length

theorem winc32_no_wrap {x : Int} (h : x + 1 < 2147483648) : winc32 x = x + 1 :=
  if_pos h

/-- Processing one `GcSegment` record bumps `all_sub_records` and the
matching tag counter by one (given no i32 wrap), preserving the
sum-of-counters invariant. -/
theorem gc_step (st : ResultRecorder) (g : GcRecord)
    (hb1 : st.heap_dump_segments_all_sub_records + 1 < 2147483648)
    (h1 : (gcCounters st).sum = st.heap_dump_segments_all_sub_records)
    (h2 : ∀ x ∈ gcCounters st, 0 ≤ x) :
    (record_record st (.GcSegment g)).heap_dump_segments_all_sub_records
        = st.heap_dump_segments_all_sub_records + 1 ∧
    (gcCounters (record_record st (.GcSegment g))).sum
        = st.heap_dump_segments_all_sub_records + 1 ∧
    (∀ x ∈ gcCounters (record_record st (.GcSegment g)), 0 ≤ x) := by
  have hwall : winc32 st.heap_dump_segments_all_sub_records
      = st.heap_dump_segments_all_sub_records + 1 := winc32_no_wrap hb1
  have hle1 : st.heap_dump_segments_gc_root_unknown ≤ st.heap_dump_segments_all_sub_records :=
    h1 ▸ List.single_le_sum h2 _ (show st.heap_dump_segments_gc_root_unknown ∈ gcCounters st by simp [gcCounters])
  have hw1 : winc32 st.heap_dump_segments_gc_root_unknown = st.heap_dump_segments_gc_root_unknown + 1 := winc32_no_wrap (by omega)
  have hle2 : st.heap_dump_segments_gc_root_thread_object ≤ st.heap_dump_segments_all_sub_records :=
    h1 ▸ List.single_le_sum h2 _ (show st.heap_dump_segments_gc_root_thread_object ∈ gcCounters st by simp [gcCounters])
  have hw2 : winc32 st.heap_dump_segments_gc_root_thread_object = st.heap_dump_segments_gc_root_thread_object + 1 := winc32_no_wrap (by omega)
  have hle3 : st.heap_dump_segments_gc_root_jni_global ≤ st.heap_dump_segments_all_sub_records :=
    h1 ▸ List.single_le_sum h2 _ (show st.heap_dump_segments_gc_root_jni_global ∈ gcCounters st by simp [gcCounters])
  have hw3 : winc32 st.heap_dump_segments_gc_root_jni_global = st.heap_dump_segments_gc_root_jni_global + 1 := winc32_no_wrap (by omega)
  have hle4 : st.heap_dump_segments_gc_root_jni_local ≤ st.heap_dump_segments_all_sub_records :=
    h1 ▸ List.single_le_sum h2 _ (show st.heap_dump_segments_gc_root_jni_local ∈ gcCounters st by simp [gcCounters])
  have hw4 : winc32 st.heap_dump_segments_gc_root_jni_local = st.heap_dump_segments_gc_root_jni_local + 1 := winc32_no_wrap (by omega)
  have hle5 : st.heap_dump_segments_gc_root_java_frame ≤ st.heap_dump_segments_all_sub_records :=
    h1 ▸ List.single_le_sum h2 _ (show st.heap_dump_segments_gc_root_java_frame ∈ gcCounters st by simp [gcCounters])
  have hw5 : winc32 st.heap_dump_segments_gc_root_java_frame = st.heap_dump_segments_gc_root_java_frame + 1 := winc32_no_wrap (by omega)
  have hle6 : st.heap_dump_segments_gc_root_native_stack ≤ st.heap_dump_segments_all_sub_records :=
    h1 ▸ List.single_le_sum h2 _ (show st.heap_dump_segments_gc_root_native_stack ∈ gcCounters st by simp [gcCounters])
  have hw6 : winc32 st.heap_dump_segments_gc_root_native_stack = st.heap_dump_segments_gc_root_native_stack + 1 := winc32_no_wrap (by omega)
  have hle7 : st.heap_dump_segments_gc_root_sticky_class ≤ st.heap_dump_segments_all_sub_records :=
    h1 ▸ List.single_le_sum h2 _ (show st.heap_dump_segments_gc_root_sticky_class ∈ gcCounters st by simp [gcCounters])
  have hw7 : winc32 st.heap_dump_segments_gc_root_sticky_class = st.heap_dump_segments_gc_root_sticky_class + 1 := winc32_no_wrap (by omega)
  have hle8 : st.heap_dump_segments_gc_root_thread_block ≤ st.heap_dump_segments_all_sub_records :=
    h1 ▸ List.single_le_sum h2 _ (show st.heap_dump_segments_gc_root_thread_block ∈ gcCounters st by simp [gcCounters])
  have hw8 : winc32 st.heap_dump_segments_gc_root_thread_block = st.heap_dump_segments_gc_root_thread_block + 1 := winc32_no_wrap (by omega)
  have hle9 : st.heap_dump_segments_gc_root_monitor_used ≤ st.heap_dump_segments_all_sub_records :=
    h1 ▸ List.single_le_sum h2 _ (show st.heap_dump_segments_gc_root_monitor_used ∈ gcCounters st by simp [gcCounters])
  have hw9 : winc32 st.heap_dump_segments_gc_root_monitor_used = st.heap_dump_segments_gc_root_monitor_used + 1 := winc32_no_wrap (by omega)
  have hle10 : st.heap_dump_segments_gc_object_array_dump ≤ st.heap_dump_segments_all_sub_records :=
    h1 ▸ List.single_le_sum h2 _ (show st.heap_dump_segments_gc_object_array_dump ∈ gcCounters st by simp [gcCounters])
  have hw10 : winc32 st.heap_dump_segments_gc_object_array_dump = st.heap_dump_segments_gc_object_array_dump + 1 := winc32_no_wrap (by omega)
  have hle11 : st.heap_dump_segments_gc_instance_dump ≤ st.heap_dump_segments_all_sub_records :=
    h1 ▸ List.single_le_sum h2 _ (show st.heap_dump_segments_gc_instance_dump ∈ gcCounters st by simp [gcCounters])
  have hw11 : winc32 st.heap_dump_segments_gc_instance_dump = st.heap_dump_segments_gc_instance_dump + 1 := winc32_no_wrap (by omega)
  have hle12 : st.heap_dump_segments_gc_primitive_array_dump ≤ st.heap_dump_segments_all_sub_records :=
    h1 ▸ List.single_le_sum h2 _ (show st.heap_dump_segments_gc_primitive_array_dump ∈ gcCounters st by simp [gcCounters])
  have hw12 : winc32 st.heap_dump_segments_gc_primitive_array_dump = st.heap_dump_segments_gc_primitive_array_dump + 1 := winc32_no_wrap (by omega)
  have hle13 : st.heap_dump_segments_gc_class_dump ≤ st.heap_dump_segments_all_sub_records :=
    h1 ▸ List.single_le_sum h2 _ (show st.heap_dump_segments_gc_class_dump ∈ gcCounters st by simp [gcCounters])
  have hw13 : winc32 st.heap_dump_segments_gc_class_dump = st.heap_dump_segments_gc_class_dump + 1 := winc32_no_wrap (by omega)
  have hp := h2
  simp only [gcCounters, List.forall_mem_cons] at hp
  cases g <;>
    refine ⟨by simp only [record_record]; exact hwall, ?_, ?_⟩ <;>
    first
    | (have hs := h1
       simp only [gcCounters, List.sum_cons, List.sum_nil] at hs
       simp only [record_record, gcCounters, List.sum_cons, List.sum_nil,
         hw1, hw2, hw3, hw4, hw5, hw6, hw7, hw8, hw9, hw10, hw11, hw12, hw13, hwall]
       omega)
    | (intro x hx
       simp only [record_record, gcCounters, List.mem_cons, List.not_mem_nil,
         or_false] at hx
       rcases hx with h | h | h | h | h | h | h | h | h | h | h | h | h <;>
         subst h <;> (try simp only [hw1, hw2, hw3, hw4, hw5, hw6, hw7, hw8, hw9, hw10, hw11, hw12, hw13]) <;> omega)

theorem record_records_cons (st : ResultRecorder) (r : Record) (l : List Record) :
    record_records st (r :: l) = record_records (record_record st r) l := rfl

/-- Sum-of-counters invariant of `record_records`, exact while the
running total stays below 2^31. -/
theorem record_records_counter_inv (l : List Record) : ∀ (st : ResultRecorder),
    (gcCounters st).sum = st.heap_dump_segments_all_sub_records →
    (∀ x ∈ gcCounters st, 0 ≤ x) →
    0 ≤ st.heap_dump_segments_all_sub_records →
    st.heap_dump_segments_all_sub_records + (countSeg l : Int) < 2147483648 →
    (record_records st l).heap_dump_segments_all_sub_records
        = st.heap_dump_segments_all_sub_records + countSeg l ∧
    (gcCounters (record_records st l)).sum
        = st.heap_dump_segments_all_sub_records + countSeg l ∧
    (∀ x ∈ gcCounters (record_records st l), 0 ≤ x) := by
  induction l with
  | nil =>
    intro st h1 h2 h3 hb
    refine ⟨by simp [record_records, countSeg], ?_, ?_⟩
    · simpa [record_records, countSeg] using h1
    · simpa [record_records] using h2
  | cons r l ih =>
    intro st h1 h2 h3 hb
    cases r with
    | GcSegment g =>
      have hcs : countSeg (Record.GcSegment g :: l) = countSeg l + 1 := by
        simp [countSeg, List.filter_cons, isGcSegment]
      rw [hcs] at hb
      have hknn : (0 : Int) ≤ (countSeg l : Int) := Int.natCast_nonneg _
      have hb1 : st.heap_dump_segments_all_sub_records + 1 < 2147483648 := by
        push_cast at hb
        omega
      obtain ⟨hA, hB, hC⟩ := gc_step st g hb1 h1 h2
      have h1' : (gcCounters (record_record st (.GcSegment g))).sum
          = (record_record st (.GcSegment g)).heap_dump_segments_all_sub_records :=
        hB.trans hA.symm
      have h3' : 0 ≤ (record_record st (.GcSegment g)).heap_dump_segments_all_sub_records := by
        rw [hA]; omega
      have hb2 : (record_record st (.GcSegment g)).heap_dump_segments_all_sub_records
          + (countSeg l : Int) < 2147483648 := by
        rw [hA]
        push_cast at hb
        omega
      obtain ⟨g1, g2, g3⟩ := ih (record_record st (.GcSegment g)) h1' hC h3' hb2
      refine ⟨?_, ?_, g3⟩
      · rw [record_records_cons, g1, hA, hcs]
        push_cast
        omega
      · rw [record_records_cons, g2, hA, hcs]
        push_cast
        omega
    | Utf8String id str => exact ih _ h1 h2 h3 hb
    | LoadClass d => exact ih _ h1 h2 h3 hb
    | UnloadClass a => exact ih _ h1 h2 h3 hb
    | StackFrame d => exact ih _ h1 h2 h3 hb
    | StackTrace d => exact ih _ h1 h2 h3 hb
    | StartThread a b c d e f => exact ih _ h1 h2 h3 hb
    | EndThread a => exact ih _ h1 h2 h3 hb
    | AllocationSites a b c d e f g h => exact ih _ h1 h2 h3 hb
    | HeapSummary a b c d => exact ih _ h1 h2 h3 hb
    | ControlSettings a b => exact ih _ h1 h2 h3 hb
    | CpuSamples a b c => exact ih _ h1 h2 h3 hb
    | HeapDumpEnd a => exact ih _ h1 h2 h3 hb
    | HeapDumpStart a => exact ih _ h1 h2 h3 hb

def wincIter : Nat → Int → Int
  | 0, x => x
  | k + 1, x => wincIter k (winc32 x)

theorem wincIter_no_wrap : ∀ (k : Nat) (x : Int),
    x + k < 2147483648 → wincIter k x = x + k := by
  intro k
  induction k with
  | zero => intro x _; simp [wincIter]
  | succ k ih =>
    intro x hx
    have hknn : (0 : Int) ≤ (k : Int) := Int.natCast_nonneg _
    have h1 : x + 1 < 2147483648 := by push_cast at hx; omega
    show wincIter k (winc32 x) = x + (k + 1 : Nat)
    rw [winc32_no_wrap h1, ih (x + 1) (by push_cast at hx ⊢; omega)]
    push_cast
    omega

theorem wincIter_succ_last : ∀ (k : Nat) (x : Int),
    wincIter (k + 1) x = winc32 (wincIter k x) := by
  intro k
  induction k with
  | zero => intro x; rfl
  | succ k ih =>
    intro x
    show wincIter (k + 1) (winc32 x) = winc32 (wincIter (k + 1) x)
    rw [ih (winc32 x)]
    rfl

/-- Effect of a run of `InstanceDump` segments on the recorder
counters: `all_sub_records` and the instance-dump counter advance by
the wrapping increment, all other tag counters are untouched. -/
theorem record_records_replicate_inst (k : Nat) : ∀ (st : ResultRecorder),
    (record_records st
        (List.replicate k (Record.GcSegment (GcRecord.InstanceDump 1 0 1 0)))).heap_dump_segments_all_sub_records
      = wincIter k st.heap_dump_segments_all_sub_records ∧
    (record_records st
        (List.replicate k (Record.GcSegment (GcRecord.InstanceDump 1 0 1 0)))).heap_dump_segments_gc_instance_dump
      = wincIter k st.heap_dump_segments_gc_instance_dump ∧
    (record_records st
        (List.replicate k (Record.GcSegment (GcRecord.InstanceDump 1 0 1 0)))).heap_dump_segments_gc_root_unknown
      = st.heap_dump_segments_gc_root_unknown ∧
    (record_records st
        (List.replicate k (Record.GcSegment (GcRecord.InstanceDump 1 0 1 0)))).heap_dump_segments_gc_root_thread_object
      = st.heap_dump_segments_gc_root_thread_object ∧
    (record_records st
        (List.replicate k (Record.GcSegment (GcRecord.InstanceDump 1 0 1 0)))).heap_dump_segments_gc_root_jni_global
      = st.heap_dump_segments_gc_root_jni_global ∧
    (record_records st
        (List.replicate k (Record.GcSegment (GcRecord.InstanceDump 1 0 1 0)))).heap_dump_segments_gc_root_jni_local
      = st.heap_dump_segments_gc_root_jni_local ∧
    (record_records st
        (List.replicate k (Record.GcSegment (GcRecord.InstanceDump 1 0 1 0)))).heap_dump_segments_gc_root_java_frame
      = st.heap_dump_segments_gc_root_java_frame ∧
    (record_records st
        (List.replicate k (Record.GcSegment (GcRecord.InstanceDump 1 0 1 0)))).heap_dump_segments_gc_root_native_stack
      = st.heap_dump_segments_gc_root_native_stack ∧
    (record_records st
        (List.replicate k (Record.GcSegment (GcRecord.InstanceDump 1 0 1 0)))).heap_dump_segments_gc_root_sticky_class
      = st.heap_dump_segments_gc_root_sticky_class ∧
    (record_records st
        (List.replicate k (Record.GcSegment (GcRecord.InstanceDump 1 0 1 0)))).heap_dump_segments_gc_root_thread_block
      = st.heap_dump_segments_gc_root_thread_block ∧
    (record_records st
        (List.replicate k (Record.GcSegment (GcRecord.InstanceDump 1 0 1 0)))).heap_dump_segments_gc_root_monitor_used
      = st.heap_dump_segments_gc_root_monitor_used ∧
    (record_records st
        (List.replicate k (Record.GcSegment (GcRecord.InstanceDump 1 0 1 0)))).heap_dump_segments_gc_object_array_dump
      = st.heap_dump_segments_gc_object_array_dump ∧
    (record_records st
        (List.replicate k (Record.GcSegment (GcRecord.InstanceDump 1 0 1 0)))).heap_dump_segments_gc_primitive_array_dump
      = st.heap_dump_segments_gc_primitive_array_dump ∧
    (record_records st
        (List.replicate k (Record.GcSegment (GcRecord.InstanceDump 1 0 1 0)))).heap_dump_segments_gc_class_dump
      = st.heap_dump_segments_gc_class_dump := by
  induction k with
  | zero =>
    intro st
    exact ⟨rfl, rfl, rfl, rfl, rfl, rfl, rfl, rfl, rfl, rfl, rfl, rfl, rfl, rfl⟩
  | succ k ih =>
    intro st
    rw [List.replicate_succ]
    exact ih (record_record st (Record.GcSegment (GcRecord.InstanceDump 1 0 1 0)))

theorem gcCounters_sum (st : ResultRecorder) :
    (gcCounters st).sum =
      st.heap_dump_segments_gc_root_unknown
        + st.heap_dump_segments_gc_root_thread_object
        + st.heap_dump_segments_gc_root_jni_global
        + st.heap_dump_segments_gc_root_jni_local
        + st.heap_dump_segments_gc_root_java_frame
        + st.heap_dump_segments_gc_root_native_stack
        + st.heap_dump_segments_gc_root_sticky_class
        + st.heap_dump_segments_gc_root_thread_block
        + st.heap_dump_segments_gc_root_monitor_used
        + st.heap_dump_segments_gc_object_array_dump
        + st.heap_dump_segments_gc_instance_dump
        + st.heap_dump_segments_gc_primitive_array_dump
        + st.heap_dump_segments_gc_class_dump := by
  simp only [gcCounters, List.sum_cons, List.sum_nil]
  ring

/-- C10 counterexample: after one `ClassDump` segment and 2^31 − 1
`InstanceDump` segments, the i32 counter `all_sub_records` has wrapped
to −2^31 while the thirteen per-tag counters (`gcCounters`) sum to
2^31, so the claimed equality fails. -/
theorem sub_record_counter_sum_cex :
    (record_records (ResultRecorder.new 8 false 20)
        (Record.GcSegment (GcRecord.ClassDump (ClassDumpData.mk 1 0 0 16 [] [] [])) ::
          List.replicate 2147483647
            (Record.GcSegment (GcRecord.InstanceDump 1 0 1 0)))).heap_dump_segments_all_sub_records
      = -2147483648 ∧
    (gcCounters (record_records (ResultRecorder.new 8 false 20)
        (Record.GcSegment (GcRecord.ClassDump (ClassDumpData.mk 1 0 0 16 [] [] [])) ::
          List.replicate 2147483647
            (Record.GcSegment (GcRecord.InstanceDump 1 0 1 0))))).sum
      = 2147483648 ∧
    (-2147483648 : Int) ≠ 2147483648 := by
  obtain ⟨hall, hinst, h3, h4, h5, h6, h7, h8, h9, h10, h11, h12, h13, h14⟩ :=
    record_records_replicate_inst 2147483647
      (record_record (ResultRecorder.new 8 false 20)
        (Record.GcSegment (GcRecord.ClassDump (ClassDumpData.mk 1 0 0 16 [] [] []))))
  refine ⟨?_, ?_, by decide⟩
  · rw [record_records_cons, hall,
      (by decide : (record_record (ResultRecorder.new 8 false 20)
        (Record.GcSegment
          (GcRecord.ClassDump (ClassDumpData.mk 1 0 0 16 [] [] [])))).heap_dump_segments_all_sub_records
        = 1)]
    have e1 : (2147483647 : Nat) = 2147483646 + 1 := by norm_num
    rw [e1, wincIter_succ_last, wincIter_no_wrap 2147483646 1 (by norm_num)]
    decide
  · rw [record_records_cons, gcCounters_sum]
    rw [hinst, h3, h4, h5, h6, h7, h8, h9, h10, h11, h12, h13, h14,
      (by decide : (record_record (ResultRecorder.new 8 false 20)
        (Record.GcSegment
          (GcRecord.ClassDump (ClassDumpData.mk 1 0 0 16 [] [] [])))).heap_dump_segments_gc_instance_dump
        = 0),
      wincIter_no_wrap 2147483647 0 (by norm_num)]
    decide

theorem record_records_flatten : ∀ (batches : List (List Record)) (st : ResultRecorder),
    batches.foldl record_records st = record_records st batches.flatten := by
  intro batches
  induction batches with
  | nil => intro st; rfl
  | cons b bs ih =>
    intro st
    show bs.foldl record_records (record_records st b) = _
    rw [ih (record_records st b)]
    show List.foldl record_record (List.foldl record_record st b) bs.flatten = _
    rw [← List.foldl_append]
    rfl

/-- C10 (amended): starting from a fresh recorder, after any sequence
of `record_records` calls in which fewer than 2^31 `GcSegment` records
occur in total, `heap_dump_segments_all_sub_records` equals the sum of
the thirteen per-sub-record-tag counters (`gcCounters`); the
counterexample shows the i32 counters wrap and the equality fails at
2^31 sub-records. -/
theorem sub_record_counter_sum (id_size top : Nat) (ls : Bool)
    (batches : List (List Record))
    (hb : countSeg batches.flatten < 2147483648) :
    (batches.foldl record_records
        (ResultRecorder.new id_size ls top)).heap_dump_segments_all_sub_records
      = (gcCounters (batches.foldl record_records
          (ResultRecorder.new id_size ls top))).sum := by
  rw [record_records_flatten]
  obtain ⟨g1, g2, g3⟩ := record_records_counter_inv batches.flatten
    (ResultRecorder.new id_size ls top) rfl
    (by intro x hx; simp [gcCounters, ResultRecorder.new] at hx; omega)
    (by simp [ResultRecorder.new])
    (by simp only [ResultRecorder.new]; omega)
  rw [g1, g2]

theorem sub_record_counter_sum_witness :
    countSeg (List.flatten
        [[Record.GcSegment (GcRecord.RootUnknown 1)],
         [Record.GcSegment (GcRecord.ClassDump (ClassDumpData.mk 1 0 0 16 [] [] []))]])
      < 2147483648 ∧
    ([[Record.GcSegment (GcRecord.RootUnknown 1)],
      [Record.GcSegment (GcRecord.ClassDump (ClassDumpData.mk 1 0 0 16 [] [] []))]].foldl
        record_records
        (ResultRecorder.new 8 false 20)).heap_dump_segments_all_sub_records
      = (gcCounters
          ([[Record.GcSegment (GcRecord.RootUnknown 1)],
            [Record.GcSegment (GcRecord.ClassDump (ClassDumpData.mk 1 0 0 16 [] [] []))]].foldl
            record_records
            (ResultRecorder.new 8 false 20))).sum :=
  ⟨by decide,
   sub_record_counter_sum 8 20 false
     [[Record.GcSegment (GcRecord.RootUnknown 1)],
      [Record.GcSegment (GcRecord.ClassDump (ClassDumpData.mk 1 0 0 16 [] [] []))]]
     (by decide)⟩

theorem chunked_streaming_equals_whole_parse_witness :
    ∃ stf, streamRun (StreamState.mk (PState.mk 0) [] 0 [])
        [[3, 0, 0, 0, 0], [0, 0, 0, 4, 0, 0, 0, 0]] = some stf ∧
      stf.acc = [Record.UnloadClass 0] ∧ stf.buffer = [] :=
  chunked_streaming_equals_whole_parse
    [3, 0, 0, 0, 0, 0, 0, 0, 4, 0, 0, 0, 0]
    [[3, 0, 0, 0, 0], [0, 0, 0, 4, 0, 0, 0, 0]]
    [Record.UnloadClass 0] (PState.mk 0)
    (by decide) (by decide) (by decide)
